import Mathlib

/-!
Verification of the Sim(3) algebra core of `sophus/sim3.hpp`.

The C++ code is templated over a scalar type; we embed it over a generic
`LinearOrderedField α`, passing the scalar type's transcendental functions
(`sin`, `cos`, `exp`, `sqrt`) and the precision-specific
`SophusConstants<Scalar>::epsilon()` as an explicit `ScalarOps` record, the
shallow counterpart of the template parameter.  `rxso3.hpp` and `so3.hpp` are
not part of the sources; the operations consumed from those collaborators are
modelled from the spec (each such definition is marked in its doc comment).
-/

namespace Sophus

/-- Scalar capability record: the per-precision functions the templated C++
code resolves on its `Scalar` type (`sin`, `cos`, `exp`, `sqrt`) together with
`SophusConstants<Scalar>::epsilon()`. -/
structure ScalarOps (α : Type) where
  sin : α → α
  cos : α → α
  exp : α → α
  sqrt : α → α
  eps : α

variable {α : Type} [LinearOrderedField α]

/-- Quaternion over the scalar type.  Modelled from the spec: the RxSO3
collaborator stores a nonzero quaternion whose norm is the scale and whose
direction is the orientation. -/
structure Quat (α : Type) where
  w : α
  x : α
  y : α
  z : α
deriving DecidableEq

namespace Quat

/-- Hamilton product.  Modelled from the spec: composition of Rotation-Scale
elements in their quaternion representation. -/
def mul (p q : Quat α) : Quat α :=
  ⟨p.w * q.w - p.x * q.x - p.y * q.y - p.z * q.z,
   p.w * q.x + p.x * q.w + p.y * q.z - p.z * q.y,
   p.w * q.y - p.x * q.z + p.y * q.w + p.z * q.x,
   p.w * q.z + p.x * q.y - p.y * q.x + p.z * q.w⟩

/-- Quaternion conjugate. -/
def conj (q : Quat α) : Quat α := ⟨q.w, -q.x, -q.y, -q.z⟩

/-- Squared norm of a quaternion. -/
def normSq (q : Quat α) : α := q.w * q.w + q.x * q.x + q.y * q.y + q.z * q.z

/-- Quaternion inverse (conjugate over squared norm).  Modelled from the spec:
inversion of a Rotation-Scale element; defined whenever the quaternion is
nonzero (spec invariant: norm > 0). -/
def inv (q : Quat α) : Quat α :=
  ⟨q.w / normSq q, -q.x / normSq q, -q.y / normSq q, -q.z / normSq q⟩

/-- Identity quaternion (identity rotation, scale one). -/
def one : Quat α := ⟨1, 0, 0, 0⟩

/-- Vector part of q · (0,v) · conj q.  For a quaternion of norm s this equals
s² times the rotation of v by the orientation of q. -/
def sandwich (q : Quat α) (v : Fin 3 → α) : Fin 3 → α :=
  let p := Quat.mul (Quat.mul q ⟨0, v 0, v 1, v 2⟩) (Quat.conj q)
  ![p.x, p.y, p.z]

/-- Modelled from the spec: the scale of a Rotation-Scale element is the norm
of its quaternion (`rxso3.hpp` is not in the sources). -/
def scale (ops : ScalarOps α) (q : Quat α) : α := ops.sqrt (normSq q)

/-- Modelled from the spec: Rotation-Scale point action "rotate and scale":
s·R·v with s the quaternion norm and R the rotation of the normalized
quaternion, i.e. the sandwich product divided by the norm. -/
def act (ops : ScalarOps α) (q : Quat α) (v : Fin 3 → α) : Fin 3 → α :=
  (ops.sqrt (normSq q))⁻¹ • sandwich q v

/-- Modelled from the spec: rotation matrix of the orientation, the standard
quaternion-to-rotation-matrix formula applied to the normalized quaternion. -/
def rotMatrix (q : Quat α) : Matrix (Fin 3) (Fin 3) α :=
  (normSq q)⁻¹ •
    !![q.w * q.w + q.x * q.x - q.y * q.y - q.z * q.z,
         2 * (q.x * q.y - q.w * q.z), 2 * (q.x * q.z + q.w * q.y);
       2 * (q.x * q.y + q.w * q.z),
         q.w * q.w - q.x * q.x + q.y * q.y - q.z * q.z,
         2 * (q.y * q.z - q.w * q.x);
       2 * (q.x * q.z - q.w * q.y), 2 * (q.y * q.z + q.w * q.x),
         q.w * q.w - q.x * q.x - q.y * q.y + q.z * q.z]

end Quat

/-- SO3 skew / hat operator of a 3-vector.  Modelled from the spec glossary
("3x3 antisymmetric matrix encoding the cross-product") with the layout fixed
by the generator documentation in sim3.hpp (generators G_3..G_5). -/
def so3hat (v : Fin 3 → α) : Matrix (Fin 3) (Fin 3) α :=
  !![0, -v 2, v 1;
     v 2, 0, -v 0;
     -v 1, v 0, 0]

/-- Eigen's 3-vector cross product, used by `lieBracket` (`omega1.cross(omega2)`). -/
def crossVec (a b : Fin 3 → α) : Fin 3 → α :=
  ![a 1 * b 2 - a 2 * b 1, a 2 * b 0 - a 0 * b 2, a 0 * b 1 - a 1 * b 0]

/-- A Sim3 element: a Rotation-Scale part (stored as a quaternion) and a
translation 3-vector (data model of sim3.hpp). -/
structure Sim3 (α : Type) where
  rxso3 : Quat α
  translation : Fin 3 → α

namespace Sim3

/-- In-place group multiplication `operator*=` (sim3.hpp lines 229-234):
`translation() += rxso3() * other.translation();` then
`rxso3() *= other.rxso3();` — the translation update reads the receiver's
rotation-scale part before it is overwritten. -/
def mulAssign (ops : ScalarOps α) (A B : Sim3 α) : Sim3 α :=
  let newTranslation := A.translation + Quat.act ops A.rxso3 B.translation
  let newRxso3 := Quat.mul A.rxso3 B.rxso3
  ⟨newRxso3, newTranslation⟩

/-- Group multiplication `operator*` (sim3.hpp lines 203-207): copy the
receiver, then compose in place. -/
def mul (ops : ScalarOps α) (A B : Sim3 α) : Sim3 α :=
  mulAssign ops A B

/-- Group action on R^3 (sim3.hpp lines 220-222): `rxso3() * p + translation()`. -/
def actPoint (ops : ScalarOps α) (A : Sim3 α) (p : Fin 3 → α) : Fin 3 → α :=
  Quat.act ops A.rxso3 p + A.translation

/-- Group inverse (sim3.hpp lines 149-153): `invR = rxso3().inverse()`;
result `(invR, invR * (translation() * -1))`. -/
def inverse (ops : ScalarOps α) (A : Sim3 α) : Sim3 α :=
  let invR := Quat.inv A.rxso3
  ⟨invR, Quat.act ops invR ((-1 : α) • A.translation)⟩

/-- Default constructor (sim3.hpp line 686): quaternion initialized to the
identity rotation (documented at lines 682-685), translation to zero. -/
def defaultSim3 : Sim3 α := ⟨Quat.one, 0⟩

end Sim3

/-- The `SOPHUS_ENSURE` condition guarding `generator` (sim3.hpp line 445),
exactly as the source writes it: `i >= 0 || i <= 6`. -/
def generator_check (i : Int) : Bool := decide (0 ≤ i) || decide (i ≤ 6)

/-- The range condition stated by `generator`'s documentation (`\pre i ∈
{0,...,6}`) and by its error message ("i should be in range [0,6]"). -/
def generator_check_documented (i : Int) : Bool := decide (0 ≤ i) && decide (i ≤ 6)

/-- The small-σ branch test of `calcW` (sim3.hpp line 570):
`abs(sigma) < SophusConstants::epsilon()`. -/
def calcW_sigma_small (eps sigma : α) : Bool := decide (|sigma| < eps)

/-- The small-θ branch test of `calcW` (sim3.hpp lines 572 and 582):
`abs(theta) < SophusConstants::epsilon()`. -/
def calcW_theta_small (eps theta : α) : Bool := decide (|theta| < eps)

/-- The small-σ branch test of `calcWInv` (sim3.hpp line 613):
`abs(sigma * sigma) < SophusConstants::epsilon()` — the test is on σ², unlike
`calcW`'s test on |σ|. -/
def calcWInv_sigma_small (eps sigma : α) : Bool := decide (|sigma * sigma| < eps)

/-- The small-θ branch test of `calcWInv` (sim3.hpp lines 616 and 625),
applied to `theta_sq`: `abs(theta_sq) < SophusConstants::epsilon()`. -/
def calcWInv_theta_small (eps theta_sq : α) : Bool := decide (|theta_sq| < eps)

/-- The coefficient kernel `calcW` (sim3.hpp lines 560-596): branch-selected
coefficients A, B, C and result `A*Omega + B*Omega² + C*I`. -/
def calcW (ops : ScalarOps α) (theta sigma scale : α)
    (Omega : Matrix (Fin 3) (Fin 3) α) : Matrix (Fin 3) (Fin 3) α :=
  let I : Matrix (Fin 3) (Fin 3) α := 1
  let one : α := 1
  let half : α := 1 / 2
  let Omega2 := Omega * Omega
  let ABC : α × α × α :=
    if calcW_sigma_small ops.eps sigma then
      let C := one
      if calcW_theta_small ops.eps theta then
        (half, (1 : α) / 6, C)
      else
        let theta_sq := theta * theta
        ((one - ops.cos theta) / theta_sq,
         (theta - ops.sin theta) / (theta_sq * theta), C)
    else
      let C := (scale - one) / sigma
      if calcW_theta_small ops.eps theta then
        let sigma_sq := sigma * sigma
        (((sigma - one) * scale + one) / sigma_sq,
         ((half * sigma * sigma - sigma + one) * scale) / (sigma_sq * sigma), C)
      else
        let theta_sq := theta * theta
        let a := scale * ops.sin theta
        let b := scale * ops.cos theta
        let c := theta_sq + sigma * sigma
        ((a * sigma + (one - b) * theta) / (theta * c),
         (C - ((b - one) * sigma + a * theta) / c) * one / theta_sq, C)
  ABC.1 • Omega + ABC.2.1 • Omega2 + ABC.2.2 • I

/-- The coefficient kernel `calcWInv` (sim3.hpp lines 598-642): branch-selected
coefficients a, b, c and result `a*Omega + b*Omega² + c*I`. -/
def calcWInv (ops : ScalarOps α) (theta sigma scale : α)
    (Omega : Matrix (Fin 3) (Fin 3) α) : Matrix (Fin 3) (Fin 3) α :=
  let I : Matrix (Fin 3) (Fin 3) α := 1
  let half : α := 1 / 2
  let one : α := 1
  let two : α := 2
  let Omega2 := Omega * Omega
  let scale_sq := scale * scale
  let theta_sq := theta * theta
  let sin_theta := ops.sin theta
  let cos_theta := ops.cos theta
  let abc : α × α × α :=
    if calcWInv_sigma_small ops.eps sigma then
      let c := one - half * sigma
      let a := -half
      if calcWInv_theta_small ops.eps theta_sq then
        (a, (1 : α) / 12, c)
      else
        (a, (theta * sin_theta + two * cos_theta - two) /
              (two * theta_sq * (cos_theta - one)), c)
    else
      let scale_cu := scale_sq * scale
      let c := sigma / (scale - one)
      if calcWInv_theta_small ops.eps theta_sq then
        ((-sigma * scale + scale - one) / ((scale - one) * (scale - one)),
         (scale_sq * sigma - two * scale_sq + scale * sigma + two * scale) /
           (two * scale_cu - (6 : α) * scale_sq + (6 : α) * scale - two), c)
      else
        let s_sin_theta := scale * sin_theta
        let s_cos_theta := scale * cos_theta
        ((theta * s_cos_theta - theta - sigma * s_sin_theta) /
           (theta * (scale_sq - two * s_cos_theta + one)),
         -scale *
             (theta * s_sin_theta - theta * sin_theta + sigma * s_cos_theta -
               scale * sigma + sigma * cos_theta - sigma) /
             (theta_sq * (scale_cu - two * scale * s_cos_theta - scale_sq +
               two * s_cos_theta + scale - one)), c)
  abc.1 • Omega + abc.2.1 • Omega2 + abc.2.2 • I

/-- Claim C1: the fail-fast check guarding `generator(i)` is the source
condition `i >= 0 || i <= 6`, which every integer satisfies: the assertion
passes at the out-of-range index 7 (and at -1), and indeed never fires for any
integer, while the documented range condition rejects 7. -/
theorem C1_generator_guard_never_fires :
    generator_check 7 = true ∧ generator_check (-1) = true ∧
      (∀ i : Int, generator_check i = true) ∧
      generator_check_documented 7 = false := by
  refine ⟨rfl, rfl, fun i => ?_, rfl⟩
  simp only [generator_check, Bool.or_eq_true, decide_eq_true_eq]
  omega

/-- Claim C2: the composition A∘B has rotation-scale part
A.rxso3 ∘ B.rxso3 and translation A.translation + A.rxso3 · B.translation;
the in-place variant updates A from B with the same formula, and the binary
operator returns the same result as copying A and composing in place. -/
theorem C2_composition (ops : ScalarOps α) (A B : Sim3 α) :
    (Sim3.mul ops A B).rxso3 = Quat.mul A.rxso3 B.rxso3 ∧
      (Sim3.mul ops A B).translation =
        A.translation + Quat.act ops A.rxso3 B.translation ∧
      Sim3.mul ops A B = Sim3.mulAssign ops A B ∧
      (Sim3.mulAssign ops A B).rxso3 = Quat.mul A.rxso3 B.rxso3 ∧
      (Sim3.mulAssign ops A B).translation =
        A.translation + Quat.act ops A.rxso3 B.translation :=
  ⟨rfl, rfl, rfl, rfl, rfl⟩

/-- Claim C9: in the doubly degenerate branch (both |σ| and |θ| below
epsilon), `calcW` uses the Taylor-limit coefficients A = 1/2, B = 1/6, C = 1,
returning (1/2)·Ω + (1/6)·Ω² + I. -/
theorem C9_calcW_doubly_small (ops : ScalarOps α) (theta sigma scale : α)
    (Omega : Matrix (Fin 3) (Fin 3) α)
    (hs : |sigma| < ops.eps) (ht : |theta| < ops.eps) :
    calcW ops theta sigma scale Omega =
      (1 / 2 : α) • Omega + (1 / 6 : α) • (Omega * Omega) +
        (1 : Matrix (Fin 3) (Fin 3) α) := by
  have h1 : calcW_sigma_small ops.eps sigma = true := by
    simp [calcW_sigma_small, hs]
  have h2 : calcW_theta_small ops.eps theta = true := by
    simp [calcW_theta_small, ht]
  simp [calcW, h1, h2]

/-- Claim C9 witness: concrete evaluation in the doubly degenerate branch. -/
theorem C9_calcW_doubly_small_witness :
    |(0 : ℚ)| < (1 : ℚ) ∧
      calcW ⟨id, id, id, id, 1⟩ 0 0 5 !![0, 1, 2; 3, 4, 5; 6, 7, 8] =
        (1 / 2 : ℚ) • !![0, 1, 2; 3, 4, 5; 6, 7, 8] +
          (1 / 6 : ℚ) •
            (!![0, 1, 2; 3, 4, 5; 6, 7, 8] * !![0, 1, 2; 3, 4, 5; 6, 7, 8]) +
          (1 : Matrix (Fin 3) (Fin 3) ℚ) :=
  ⟨by norm_num,
   C9_calcW_doubly_small ⟨id, id, id, id, 1⟩ 0 0 5 _ (by norm_num) (by norm_num)⟩

/-- Claim C4: the σ-smallness tests of the two kernels are asymmetric:
`calcWInv` branches on |σ·σ| < ε (i.e. σ² < ε, an effective threshold of √ε
on |σ|) while `calcW` branches on |σ| < ε. -/
theorem C4_sigma_branch_asymmetry (eps sigma : ℝ) :
    (calcWInv_sigma_small eps sigma = true ↔ sigma ^ 2 < eps) ∧
      (calcW_sigma_small eps sigma = true ↔ |sigma| < eps) ∧
      (calcWInv_sigma_small eps sigma = true ↔ |sigma| < Real.sqrt eps) := by
  have habs : |sigma * sigma| = sigma ^ 2 := by
    rw [abs_mul_self]; ring
  refine ⟨?_, ?_, ?_⟩
  · simp [calcWInv_sigma_small, habs]
  · simp [calcW_sigma_small]
  · rw [calcWInv_sigma_small, decide_eq_true_eq, habs,
      Real.lt_sqrt (abs_nonneg sigma), sq_abs]

namespace Quat

theorem mul_one_left (q : Quat α) : Quat.mul Quat.one q = q := by
  cases q
  simp [Quat.mul, Quat.one]

theorem mul_one_right (q : Quat α) : Quat.mul q Quat.one = q := by
  cases q
  simp [Quat.mul, Quat.one]

theorem normSq_nonneg (q : Quat α) : 0 ≤ normSq q :=
  add_nonneg
    (add_nonneg (add_nonneg (mul_self_nonneg q.w) (mul_self_nonneg q.x))
      (mul_self_nonneg q.y))
    (mul_self_nonneg q.z)

theorem normSq_one : normSq (Quat.one : Quat α) = 1 := by
  simp [normSq, Quat.one]

theorem mul_inv_self (q : Quat α) (h : normSq q ≠ 0) :
    Quat.mul q (Quat.inv q) = Quat.one := by
  cases q
  simp only [normSq] at h
  simp only [Quat.mul, Quat.inv, Quat.one, normSq, Quat.mk.injEq]
  refine ⟨?_, ?_, ?_, ?_⟩ <;> field_simp <;> ring

theorem inv_mul_self (q : Quat α) (h : normSq q ≠ 0) :
    Quat.mul (Quat.inv q) q = Quat.one := by
  cases q
  simp only [normSq] at h
  simp only [Quat.mul, Quat.inv, Quat.one, normSq, Quat.mk.injEq]
  refine ⟨?_, ?_, ?_, ?_⟩ <;> field_simp <;> ring

theorem normSq_inv (q : Quat α) : normSq (Quat.inv q) = (normSq q)⁻¹ := by
  by_cases h : normSq q = 0
  · cases q
    simp only [Quat.inv, normSq] at h ⊢
    rw [h]
    simp
  · refine eq_inv_of_mul_eq_one_left ?_
    cases q
    simp only [Quat.inv, normSq] at h ⊢
    field_simp

theorem sandwich_one (v : Fin 3 → α) : sandwich (Quat.one : Quat α) v = v := by
  funext i
  fin_cases i <;> simp [sandwich, Quat.mul, Quat.conj, Quat.one]

theorem sandwich_zero (q : Quat α) : sandwich q (0 : Fin 3 → α) = 0 := by
  funext i
  fin_cases i <;> simp [sandwich, Quat.mul, Quat.conj]

theorem sandwich_add (q : Quat α) (u v : Fin 3 → α) :
    sandwich q (u + v) = sandwich q u + sandwich q v := by
  funext i
  fin_cases i <;> simp [sandwich, Quat.mul, Quat.conj] <;> ring

theorem sandwich_smul (q : Quat α) (c : α) (v : Fin 3 → α) :
    sandwich q (c • v) = c • sandwich q v := by
  funext i
  fin_cases i <;> simp [sandwich, Quat.mul, Quat.conj, smul_eq_mul] <;> ring

theorem sandwich_comp (p q : Quat α) (v : Fin 3 → α) :
    sandwich p (sandwich q v) = sandwich (Quat.mul p q) v := by
  funext i
  fin_cases i <;> simp [sandwich, Quat.mul, Quat.conj] <;> ring

theorem sqrt_normSq_mul_sqrt_normSq_inv (ops : ScalarOps α) (q : Quat α)
    (hmul : ∀ x y : α, 0 ≤ x → ops.sqrt (x * y) = ops.sqrt x * ops.sqrt y)
    (hone : ops.sqrt 1 = 1) (h : normSq q ≠ 0) :
    ops.sqrt (normSq q) * ops.sqrt (normSq q)⁻¹ = 1 := by
  rw [← hmul (normSq q) (normSq q)⁻¹ (normSq_nonneg q), mul_inv_cancel₀ h, hone]

theorem act_act_inv (ops : ScalarOps α) (q : Quat α)
    (hmul : ∀ x y : α, 0 ≤ x → ops.sqrt (x * y) = ops.sqrt x * ops.sqrt y)
    (hone : ops.sqrt 1 = 1) (h : normSq q ≠ 0) (v : Fin 3 → α) :
    act ops q (act ops (Quat.inv q) v) = v := by
  unfold act
  rw [normSq_inv, sandwich_smul, smul_smul, sandwich_comp, mul_inv_self q h,
    sandwich_one, ← mul_inv,
    sqrt_normSq_mul_sqrt_normSq_inv ops q hmul hone h, inv_one, one_smul]

theorem act_inv_act (ops : ScalarOps α) (q : Quat α)
    (hmul : ∀ x y : α, 0 ≤ x → ops.sqrt (x * y) = ops.sqrt x * ops.sqrt y)
    (hone : ops.sqrt 1 = 1) (h : normSq q ≠ 0) (v : Fin 3 → α) :
    act ops (Quat.inv q) (act ops q v) = v := by
  unfold act
  rw [normSq_inv, sandwich_smul, smul_smul, sandwich_comp, inv_mul_self q h,
    sandwich_one, ← mul_inv, mul_comm,
    sqrt_normSq_mul_sqrt_normSq_inv ops q hmul hone h, inv_one, one_smul]

theorem act_add (ops : ScalarOps α) (q : Quat α) (u v : Fin 3 → α) :
    act ops q (u + v) = act ops q u + act ops q v := by
  unfold act
  rw [sandwich_add, smul_add]

theorem act_zero (ops : ScalarOps α) (q : Quat α) :
    act ops q (0 : Fin 3 → α) = 0 := by
  unfold act
  rw [sandwich_zero, smul_zero]

theorem act_one (ops : ScalarOps α) (hone : ops.sqrt 1 = 1) (v : Fin 3 → α) :
    act ops (Quat.one : Quat α) v = v := by
  unfold act
  rw [normSq_one, hone, sandwich_one, inv_one, one_smul]

end Quat

/-- Claim C6: for every Sim3 element (with the spec invariant of a nonzero
quaternion, i.e. positive scale), g ∘ g⁻¹ and g⁻¹ ∘ g are the identity
element, where inverse() returns (invRS, invRS · (−translation)).  The sqrt
hypotheses state the defining properties of the scalar type's square root
used by the modelled Rotation-Scale action. -/
theorem C6_inverse (ops : ScalarOps α) (g : Sim3 α)
    (hmul : ∀ x y : α, 0 ≤ x → ops.sqrt (x * y) = ops.sqrt x * ops.sqrt y)
    (hone : ops.sqrt 1 = 1)
    (hq : Quat.normSq g.rxso3 ≠ 0) :
    Sim3.mul ops g (Sim3.inverse ops g) = Sim3.defaultSim3 ∧
      Sim3.mul ops (Sim3.inverse ops g) g = Sim3.defaultSim3 ∧
      Sim3.inverse ops g = ⟨Quat.inv g.rxso3,
        Quat.act ops (Quat.inv g.rxso3) ((-1 : α) • g.translation)⟩ := by
  obtain ⟨q, t⟩ := g
  simp only [Quat.normSq] at hq
  refine ⟨?_, ?_, rfl⟩
  · simp only [Sim3.mul, Sim3.mulAssign, Sim3.inverse, Sim3.defaultSim3,
      Sim3.mk.injEq]
    constructor
    · exact Quat.mul_inv_self q hq
    · rw [Quat.act_act_inv ops q hmul hone hq, neg_one_smul]
      exact add_neg_cancel t
  · simp only [Sim3.mul, Sim3.mulAssign, Sim3.inverse, Sim3.defaultSim3,
      Sim3.mk.injEq]
    constructor
    · exact Quat.inv_mul_self q hq
    · rw [← Quat.act_add, neg_one_smul, neg_add_cancel, Quat.act_zero]

/-- Claim C6 witness: a concrete real Sim3 element composed with its inverse
on both sides gives the identity. -/
theorem C6_inverse_witness :
    Quat.normSq (⟨3, 0, 4, 0⟩ : Quat ℝ) ≠ 0 ∧
      Sim3.mul (⟨Real.sin, Real.cos, Real.exp, Real.sqrt, 1 / 10 ^ 10⟩ : ScalarOps ℝ)
          ⟨⟨3, 0, 4, 0⟩, ![1, 2, 3]⟩
          (Sim3.inverse ⟨Real.sin, Real.cos, Real.exp, Real.sqrt, 1 / 10 ^ 10⟩
            ⟨⟨3, 0, 4, 0⟩, ![1, 2, 3]⟩) = Sim3.defaultSim3 ∧
      Sim3.mul (⟨Real.sin, Real.cos, Real.exp, Real.sqrt, 1 / 10 ^ 10⟩ : ScalarOps ℝ)
          (Sim3.inverse ⟨Real.sin, Real.cos, Real.exp, Real.sqrt, 1 / 10 ^ 10⟩
            ⟨⟨3, 0, 4, 0⟩, ![1, 2, 3]⟩)
          ⟨⟨3, 0, 4, 0⟩, ![1, 2, 3]⟩ = Sim3.defaultSim3 := by
  have h := C6_inverse
    (⟨Real.sin, Real.cos, Real.exp, Real.sqrt, 1 / 10 ^ 10⟩ : ScalarOps ℝ)
    ⟨⟨3, 0, 4, 0⟩, ![1, 2, 3]⟩
    (fun x y hx => Real.sqrt_mul hx y) Real.sqrt_one
    (by norm_num [Quat.normSq])
  exact ⟨by norm_num [Quat.normSq], h.1, h.2.1⟩

/-- Claim C10: the default-constructed Sim3 element is the group identity:
zero translation, identity rotation-scale part (scale 1), it fixes every
point, and it is a two-sided identity for composition. -/
theorem C10_default_identity (ops : ScalarOps α) (g : Sim3 α) (p : Fin 3 → α)
    (hone : ops.sqrt 1 = 1) :
    (Sim3.defaultSim3 : Sim3 α).translation = 0 ∧
      (Sim3.defaultSim3 : Sim3 α).rxso3 = Quat.one ∧
      Quat.scale ops (Quat.one : Quat α) = 1 ∧
      Sim3.actPoint ops Sim3.defaultSim3 p = p ∧
      Sim3.mul ops Sim3.defaultSim3 g = g ∧
      Sim3.mul ops g Sim3.defaultSim3 = g := by
  obtain ⟨q, t⟩ := g
  refine ⟨rfl, rfl, ?_, ?_, ?_, ?_⟩
  · rw [Quat.scale, Quat.normSq_one, hone]
  · simp only [Sim3.actPoint, Sim3.defaultSim3, Quat.act_one ops hone]
    exact add_zero p
  · simp only [Sim3.mul, Sim3.mulAssign, Sim3.defaultSim3, Sim3.mk.injEq]
    exact ⟨Quat.mul_one_left q, by rw [Quat.act_one ops hone, zero_add]⟩
  · simp only [Sim3.mul, Sim3.mulAssign, Sim3.defaultSim3, Sim3.mk.injEq]
    exact ⟨Quat.mul_one_right q, by rw [Quat.act_zero, add_zero]⟩

/-- Claim C10 witness: the default element is a concrete identity over ℝ. -/
theorem C10_default_identity_witness :
    Sim3.actPoint (⟨Real.sin, Real.cos, Real.exp, Real.sqrt, 1 / 10 ^ 10⟩ : ScalarOps ℝ)
        Sim3.defaultSim3 ![1, 2, 3] = ![1, 2, 3] ∧
      Sim3.mul (⟨Real.sin, Real.cos, Real.exp, Real.sqrt, 1 / 10 ^ 10⟩ : ScalarOps ℝ)
        Sim3.defaultSim3 ⟨⟨2, 0, 0, 0⟩, ![5, 6, 7]⟩ = ⟨⟨2, 0, 0, 0⟩, ![5, 6, 7]⟩ ∧
      Sim3.mul (⟨Real.sin, Real.cos, Real.exp, Real.sqrt, 1 / 10 ^ 10⟩ : ScalarOps ℝ)
        ⟨⟨2, 0, 0, 0⟩, ![5, 6, 7]⟩ Sim3.defaultSim3 = ⟨⟨2, 0, 0, 0⟩, ![5, 6, 7]⟩ := by
  have h := C10_default_identity
    (⟨Real.sin, Real.cos, Real.exp, Real.sqrt, 1 / 10 ^ 10⟩ : ScalarOps ℝ)
    ⟨⟨2, 0, 0, 0⟩, ![5, 6, 7]⟩ ![1, 2, 3] Real.sqrt_one
  exact ⟨h.2.2.2.1, h.2.2.2.2.1, h.2.2.2.2.2⟩

/-- Evaluation lemmas for vector literals and for `Fin` indices produced by
case analysis, used to expand the fixed-size Eigen vectors and matrices. -/
theorem fin3_mk0 (h : 0 < 3) : (⟨0, h⟩ : Fin 3) = 0 := rfl

theorem fin3_mk1 (h : 1 < 3) : (⟨1, h⟩ : Fin 3) = 1 := rfl

theorem fin3_mk2 (h : 2 < 3) : (⟨2, h⟩ : Fin 3) = 2 := rfl

theorem fin4_mk0 (h : 0 < 4) : (⟨0, h⟩ : Fin 4) = 0 := rfl

theorem fin4_mk1 (h : 1 < 4) : (⟨1, h⟩ : Fin 4) = 1 := rfl

theorem fin4_mk2 (h : 2 < 4) : (⟨2, h⟩ : Fin 4) = 2 := rfl

theorem fin4_mk3 (h : 3 < 4) : (⟨3, h⟩ : Fin 4) = 3 := rfl

theorem fin7_mk0 (h : 0 < 7) : (⟨0, h⟩ : Fin 7) = 0 := rfl

theorem fin7_mk1 (h : 1 < 7) : (⟨1, h⟩ : Fin 7) = 1 := rfl

theorem fin7_mk2 (h : 2 < 7) : (⟨2, h⟩ : Fin 7) = 2 := rfl

theorem fin7_mk3 (h : 3 < 7) : (⟨3, h⟩ : Fin 7) = 3 := rfl

theorem fin7_mk4 (h : 4 < 7) : (⟨4, h⟩ : Fin 7) = 4 := rfl

theorem fin7_mk5 (h : 5 < 7) : (⟨5, h⟩ : Fin 7) = 5 := rfl

theorem fin7_mk6 (h : 6 < 7) : (⟨6, h⟩ : Fin 7) = 6 := rfl

theorem vec3_at0 {β : Type*} (x0 x1 x2 : β) : ![x0, x1, x2] 0 = x0 := rfl

theorem vec3_at1 {β : Type*} (x0 x1 x2 : β) : ![x0, x1, x2] 1 = x1 := rfl

theorem vec3_at2 {β : Type*} (x0 x1 x2 : β) : ![x0, x1, x2] 2 = x2 := rfl

theorem vec4_at0 {β : Type*} (x0 x1 x2 x3 : β) : ![x0, x1, x2, x3] 0 = x0 := rfl

theorem vec4_at1 {β : Type*} (x0 x1 x2 x3 : β) : ![x0, x1, x2, x3] 1 = x1 := rfl

theorem vec4_at2 {β : Type*} (x0 x1 x2 x3 : β) : ![x0, x1, x2, x3] 2 = x2 := rfl

theorem vec4_at3 {β : Type*} (x0 x1 x2 x3 : β) : ![x0, x1, x2, x3] 3 = x3 := rfl

theorem vec7_at0 {β : Type*} (x0 x1 x2 x3 x4 x5 x6 : β) :
    ![x0, x1, x2, x3, x4, x5, x6] 0 = x0 := rfl

theorem vec7_at1 {β : Type*} (x0 x1 x2 x3 x4 x5 x6 : β) :
    ![x0, x1, x2, x3, x4, x5, x6] 1 = x1 := rfl

theorem vec7_at2 {β : Type*} (x0 x1 x2 x3 x4 x5 x6 : β) :
    ![x0, x1, x2, x3, x4, x5, x6] 2 = x2 := rfl

theorem vec7_at3 {β : Type*} (x0 x1 x2 x3 x4 x5 x6 : β) :
    ![x0, x1, x2, x3, x4, x5, x6] 3 = x3 := rfl

theorem vec7_at4 {β : Type*} (x0 x1 x2 x3 x4 x5 x6 : β) :
    ![x0, x1, x2, x3, x4, x5, x6] 4 = x4 := rfl

theorem vec7_at5 {β : Type*} (x0 x1 x2 x3 x4 x5 x6 : β) :
    ![x0, x1, x2, x3, x4, x5, x6] 5 = x5 := rfl

theorem vec7_at6 {β : Type*} (x0 x1 x2 x3 x4 x5 x6 : β) :
    ![x0, x1, x2, x3, x4, x5, x6] 6 = x6 := rfl

/-- RxSO3 hat of a 4-vector (ω, σ): skew(ω) + σ·I.  Modelled from the spec
(§4.2: the upper-left block of the Sim3 hat is the Rotation-Scale hat of
(ω,σ), i.e. skew(ω)+σI; rxso3.hpp is not in the sources). -/
def rxso3hat (v : Fin 4 → α) : Matrix (Fin 3) (Fin 3) α :=
  so3hat ![v 0, v 1, v 2] + v 3 • 1

/-- RxSO3 vee, the inverse of `rxso3hat`: ω read off the skew part, σ off the
diagonal.  Modelled from the spec (§4.2). -/
def rxso3vee (M : Matrix (Fin 3) (Fin 3) α) : Fin 4 → α :=
  ![M 2 1, M 0 2, M 1 0, M 0 0]

/-- Upper-left 3x3 block of a 4x4 matrix (`topLeftCorner<3,3>`). -/
def topLeft3 (M : Matrix (Fin 4) (Fin 4) α) : Matrix (Fin 3) (Fin 3) α :=
  !![M 0 0, M 0 1, M 0 2;
     M 1 0, M 1 1, M 1 2;
     M 2 0, M 2 1, M 2 2]

namespace Sim3

/-- hat-operator (sim3.hpp lines 466-473): upper-left 3x3 block is the RxSO3
hat of the tail 4-vector, first three entries of the last column are the head
3-vector, last row is zero. -/
def hat (v : Fin 7 → α) : Matrix (Fin 4) (Fin 4) α :=
  let T := rxso3hat ![v 3, v 4, v 5, v 6]
  !![T 0 0, T 0 1, T 0 2, v 0;
     T 1 0, T 1 1, T 1 2, v 1;
     T 2 0, T 2 1, T 2 2, v 2;
     0, 0, 0, 0]

/-- vee-operator (sim3.hpp lines 551-557): head 3-vector from the last
column, tail 4-vector from the RxSO3 vee of the upper-left 3x3 block. -/
def vee (Om : Matrix (Fin 4) (Fin 4) α) : Fin 7 → α :=
  let rv := rxso3vee (topLeft3 Om)
  ![Om 0 3, Om 1 3, Om 2 3, rv 0, rv 1, rv 2, rv 3]

end Sim3

/-- Claim C7: hat and vee are mutually inverse: `vee (hat a) = a` for every
7-dimensional tangent vector a, and `hat (vee Ω) = Ω` for every 4x4 matrix
whose upper-left 3x3 block has the valid Lie-algebra form skew(ω) + σ·I and
whose last row is zero. -/
theorem C7_hat_vee (a : Fin 7 → α) (Om : Matrix (Fin 4) (Fin 4) α)
    (hform : ∃ ω : Fin 3 → α, ∃ σ : α,
      topLeft3 Om = so3hat ω + σ • (1 : Matrix (Fin 3) (Fin 3) α))
    (hrow : ∀ j, Om 3 j = 0) :
    Sim3.vee (Sim3.hat a) = a ∧ Sim3.hat (Sim3.vee Om) = Om := by
  constructor
  · funext i
    fin_cases i <;>
      · simp only [Sim3.vee, Sim3.hat, rxso3hat, rxso3vee, topLeft3, so3hat,
          fin3_mk0, fin3_mk1, fin3_mk2, fin4_mk0, fin4_mk1, fin4_mk2, fin4_mk3, fin7_mk0, fin7_mk1, fin7_mk2, fin7_mk3, fin7_mk4, fin7_mk5, fin7_mk6,
          vec3_at0, vec3_at1, vec3_at2, vec4_at0, vec4_at1, vec4_at2, vec4_at3, vec7_at0, vec7_at1, vec7_at2, vec7_at3, vec7_at4, vec7_at5, vec7_at6,
          Matrix.add_apply, Matrix.smul_apply, Matrix.neg_apply, Matrix.sub_apply, Matrix.of_apply, Matrix.one_fin_three, smul_eq_mul, mul_zero, mul_one, zero_mul, one_mul, add_zero, zero_add, neg_zero, sub_zero, neg_neg]
        try rfl
  · obtain ⟨ω, σ, hTL⟩ := hform
    have hij : ∀ i j : Fin 3, topLeft3 Om i j =
        (so3hat ω + σ • (1 : Matrix (Fin 3) (Fin 3) α)) i j :=
      fun i j => by rw [hTL]
    have e00 : Om 0 0 = σ := by
      simpa only [topLeft3, so3hat,
        vec3_at0, vec3_at1, vec3_at2, vec4_at0, vec4_at1, vec4_at2, vec4_at3, vec7_at0, vec7_at1, vec7_at2, vec7_at3, vec7_at4, vec7_at5, vec7_at6,
        Matrix.add_apply, Matrix.smul_apply, Matrix.neg_apply, Matrix.sub_apply, Matrix.of_apply, Matrix.one_fin_three, smul_eq_mul, mul_zero, mul_one, zero_mul, one_mul, add_zero, zero_add, neg_zero, sub_zero, neg_neg] using hij 0 0
    have e01 : Om 0 1 = -ω 2 := by
      simpa only [topLeft3, so3hat,
        vec3_at0, vec3_at1, vec3_at2, vec4_at0, vec4_at1, vec4_at2, vec4_at3, vec7_at0, vec7_at1, vec7_at2, vec7_at3, vec7_at4, vec7_at5, vec7_at6,
        Matrix.add_apply, Matrix.smul_apply, Matrix.neg_apply, Matrix.sub_apply, Matrix.of_apply, Matrix.one_fin_three, smul_eq_mul, mul_zero, mul_one, zero_mul, one_mul, add_zero, zero_add, neg_zero, sub_zero, neg_neg] using hij 0 1
    have e02 : Om 0 2 = ω 1 := by
      simpa only [topLeft3, so3hat,
        vec3_at0, vec3_at1, vec3_at2, vec4_at0, vec4_at1, vec4_at2, vec4_at3, vec7_at0, vec7_at1, vec7_at2, vec7_at3, vec7_at4, vec7_at5, vec7_at6,
        Matrix.add_apply, Matrix.smul_apply, Matrix.neg_apply, Matrix.sub_apply, Matrix.of_apply, Matrix.one_fin_three, smul_eq_mul, mul_zero, mul_one, zero_mul, one_mul, add_zero, zero_add, neg_zero, sub_zero, neg_neg] using hij 0 2
    have e10 : Om 1 0 = ω 2 := by
      simpa only [topLeft3, so3hat,
        vec3_at0, vec3_at1, vec3_at2, vec4_at0, vec4_at1, vec4_at2, vec4_at3, vec7_at0, vec7_at1, vec7_at2, vec7_at3, vec7_at4, vec7_at5, vec7_at6,
        Matrix.add_apply, Matrix.smul_apply, Matrix.neg_apply, Matrix.sub_apply, Matrix.of_apply, Matrix.one_fin_three, smul_eq_mul, mul_zero, mul_one, zero_mul, one_mul, add_zero, zero_add, neg_zero, sub_zero, neg_neg] using hij 1 0
    have e11 : Om 1 1 = σ := by
      simpa only [topLeft3, so3hat,
        vec3_at0, vec3_at1, vec3_at2, vec4_at0, vec4_at1, vec4_at2, vec4_at3, vec7_at0, vec7_at1, vec7_at2, vec7_at3, vec7_at4, vec7_at5, vec7_at6,
        Matrix.add_apply, Matrix.smul_apply, Matrix.neg_apply, Matrix.sub_apply, Matrix.of_apply, Matrix.one_fin_three, smul_eq_mul, mul_zero, mul_one, zero_mul, one_mul, add_zero, zero_add, neg_zero, sub_zero, neg_neg] using hij 1 1
    have e12 : Om 1 2 = -ω 0 := by
      simpa only [topLeft3, so3hat,
        vec3_at0, vec3_at1, vec3_at2, vec4_at0, vec4_at1, vec4_at2, vec4_at3, vec7_at0, vec7_at1, vec7_at2, vec7_at3, vec7_at4, vec7_at5, vec7_at6,
        Matrix.add_apply, Matrix.smul_apply, Matrix.neg_apply, Matrix.sub_apply, Matrix.of_apply, Matrix.one_fin_three, smul_eq_mul, mul_zero, mul_one, zero_mul, one_mul, add_zero, zero_add, neg_zero, sub_zero, neg_neg] using hij 1 2
    have e20 : Om 2 0 = -ω 1 := by
      simpa only [topLeft3, so3hat,
        vec3_at0, vec3_at1, vec3_at2, vec4_at0, vec4_at1, vec4_at2, vec4_at3, vec7_at0, vec7_at1, vec7_at2, vec7_at3, vec7_at4, vec7_at5, vec7_at6,
        Matrix.add_apply, Matrix.smul_apply, Matrix.neg_apply, Matrix.sub_apply, Matrix.of_apply, Matrix.one_fin_three, smul_eq_mul, mul_zero, mul_one, zero_mul, one_mul, add_zero, zero_add, neg_zero, sub_zero, neg_neg] using hij 2 0
    have e21 : Om 2 1 = ω 0 := by
      simpa only [topLeft3, so3hat,
        vec3_at0, vec3_at1, vec3_at2, vec4_at0, vec4_at1, vec4_at2, vec4_at3, vec7_at0, vec7_at1, vec7_at2, vec7_at3, vec7_at4, vec7_at5, vec7_at6,
        Matrix.add_apply, Matrix.smul_apply, Matrix.neg_apply, Matrix.sub_apply, Matrix.of_apply, Matrix.one_fin_three, smul_eq_mul, mul_zero, mul_one, zero_mul, one_mul, add_zero, zero_add, neg_zero, sub_zero, neg_neg] using hij 2 1
    have e22 : Om 2 2 = σ := by
      simpa only [topLeft3, so3hat,
        vec3_at0, vec3_at1, vec3_at2, vec4_at0, vec4_at1, vec4_at2, vec4_at3, vec7_at0, vec7_at1, vec7_at2, vec7_at3, vec7_at4, vec7_at5, vec7_at6,
        Matrix.add_apply, Matrix.smul_apply, Matrix.neg_apply, Matrix.sub_apply, Matrix.of_apply, Matrix.one_fin_three, smul_eq_mul, mul_zero, mul_one, zero_mul, one_mul, add_zero, zero_add, neg_zero, sub_zero, neg_neg] using hij 2 2
    ext i j
    fin_cases i <;> fin_cases j <;>
      · simp only [Sim3.hat, Sim3.vee, rxso3hat, rxso3vee, topLeft3, so3hat,
          fin3_mk0, fin3_mk1, fin3_mk2, fin4_mk0, fin4_mk1, fin4_mk2, fin4_mk3, fin7_mk0, fin7_mk1, fin7_mk2, fin7_mk3, fin7_mk4, fin7_mk5, fin7_mk6,
          vec3_at0, vec3_at1, vec3_at2, vec4_at0, vec4_at1, vec4_at2, vec4_at3, vec7_at0, vec7_at1, vec7_at2, vec7_at3, vec7_at4, vec7_at5, vec7_at6,
          Matrix.add_apply, Matrix.smul_apply, Matrix.neg_apply, Matrix.sub_apply, Matrix.of_apply, Matrix.one_fin_three, smul_eq_mul, mul_zero, mul_one, zero_mul, one_mul, add_zero, zero_add, neg_zero, sub_zero, neg_neg,
          e00, e01, e02, e10, e11, e12, e20, e21, e22, hrow]
        try rfl

/-- Claim C7 witness: concrete rational instances of both round trips. -/
theorem C7_hat_vee_witness :
    Sim3.vee (Sim3.hat (![1, 2, 3, 4, 5, 6, 7] : Fin 7 → ℚ)) =
        ![1, 2, 3, 4, 5, 6, 7] ∧
      Sim3.hat (Sim3.vee
          (!![7, -6, 5, 1; 6, 7, -4, 2; -5, 4, 7, 3; 0, 0, 0, 0] :
            Matrix (Fin 4) (Fin 4) ℚ)) =
        !![7, -6, 5, 1; 6, 7, -4, 2; -5, 4, 7, 3; 0, 0, 0, 0] :=
  C7_hat_vee (![1, 2, 3, 4, 5, 6, 7] : Fin 7 → ℚ)
    (!![7, -6, 5, 1; 6, 7, -4, 2; -5, 4, 7, 3; 0, 0, 0, 0] :
      Matrix (Fin 4) (Fin 4) ℚ)
    ⟨![4, 5, 6], 7, by
      ext i j
      fin_cases i <;> fin_cases j <;>
        · simp only [topLeft3, so3hat,
            fin3_mk0, fin3_mk1, fin3_mk2, fin4_mk0, fin4_mk1, fin4_mk2, fin4_mk3, fin7_mk0, fin7_mk1, fin7_mk2, fin7_mk3, fin7_mk4, fin7_mk5, fin7_mk6,
            vec3_at0, vec3_at1, vec3_at2, vec4_at0, vec4_at1, vec4_at2, vec4_at3, vec7_at0, vec7_at1, vec7_at2, vec7_at3, vec7_at4, vec7_at5, vec7_at6,
            Matrix.add_apply, Matrix.smul_apply, Matrix.neg_apply, Matrix.sub_apply, Matrix.of_apply, Matrix.one_fin_three, smul_eq_mul, mul_zero, mul_one, zero_mul, one_mul, add_zero, zero_add, neg_zero, sub_zero, neg_neg]
          try norm_num⟩
    (fun j => by fin_cases j <;> rfl)

/-- Lie bracket (sim3.hpp lines 492-508): translational part
skew(ω₁)·υ₂ + skew(υ₁)·ω₂ + σ₁·υ₂ − σ₂·υ₁, rotational part ω₁ × ω₂, scale
part 0. -/
def lieBracket (a b : Fin 7 → α) : Fin 7 → α :=
  let upsilon1 : Fin 3 → α := ![a 0, a 1, a 2]
  let upsilon2 : Fin 3 → α := ![b 0, b 1, b 2]
  let omega1 : Fin 3 → α := ![a 3, a 4, a 5]
  let omega2 : Fin 3 → α := ![b 3, b 4, b 5]
  let sigma1 := a 6
  let sigma2 := b 6
  let h := (so3hat omega1).mulVec upsilon2 + (so3hat upsilon1).mulVec omega2 +
    sigma1 • upsilon2 - sigma2 • upsilon1
  let r := crossVec omega1 omega2
  ![h 0, h 1, h 2, r 0, r 1, r 2, 0]

/-- Derivative of the Lie bracket in its first argument (sim3.hpp lines
347-361): a zero 7x7 matrix with top-left block −skew(ω₂)−σ₂·I, block
(rows 0-2, cols 3-5) −skew(υ₂), top-right column υ₂, and block (rows 3-5,
cols 3-5) −skew(ω₂). -/
def d_lieBracketab_by_d_a (b : Fin 7 → α) : Matrix (Fin 7) (Fin 7) α :=
  let upsilon2 : Fin 3 → α := ![b 0, b 1, b 2]
  let omega2 : Fin 3 → α := ![b 3, b 4, b 5]
  let sigma2 := b 6
  let TL := -so3hat omega2 - sigma2 • (1 : Matrix (Fin 3) (Fin 3) α)
  let TM := -so3hat upsilon2
  let MM := -so3hat omega2
  !![TL 0 0, TL 0 1, TL 0 2, TM 0 0, TM 0 1, TM 0 2, upsilon2 0;
     TL 1 0, TL 1 1, TL 1 2, TM 1 0, TM 1 1, TM 1 2, upsilon2 1;
     TL 2 0, TL 2 1, TL 2 2, TM 2 0, TM 2 1, TM 2 2, upsilon2 2;
     0, 0, 0, MM 0 0, MM 0 1, MM 0 2, 0;
     0, 0, 0, MM 1 0, MM 1 1, MM 1 2, 0;
     0, 0, 0, MM 2 0, MM 2 1, MM 2 2, 0;
     0, 0, 0, 0, 0, 0, 0]

set_option maxHeartbeats 1600000 in
/-- Claim C8: `d_lieBracketab_by_d_a(b)` is the matrix of the linear map
a ↦ lieBracket(a,b): its product with any tangent vector a equals
lieBracket(a,b), whose scale component is 0. -/
theorem C8_bracket_jacobian (b a : Fin 7 → α) :
    (d_lieBracketab_by_d_a b).mulVec a = lieBracket a b ∧
      lieBracket a b 6 = 0 := by
  constructor
  · funext i
    fin_cases i <;>
      · simp only [d_lieBracketab_by_d_a, lieBracket, Matrix.mulVec,
          Matrix.dotProduct, Fin.sum_univ_seven, Fin.sum_univ_three, so3hat,
          crossVec, Pi.add_apply, Pi.sub_apply, Pi.smul_apply,
          fin3_mk0, fin3_mk1, fin3_mk2, fin4_mk0, fin4_mk1, fin4_mk2, fin4_mk3, fin7_mk0, fin7_mk1, fin7_mk2, fin7_mk3, fin7_mk4, fin7_mk5, fin7_mk6,
          vec3_at0, vec3_at1, vec3_at2, vec4_at0, vec4_at1, vec4_at2, vec4_at3, vec7_at0, vec7_at1, vec7_at2, vec7_at3, vec7_at4, vec7_at5, vec7_at6,
          Matrix.add_apply, Matrix.smul_apply, Matrix.neg_apply, Matrix.sub_apply, Matrix.of_apply, Matrix.one_fin_three, smul_eq_mul, mul_zero, mul_one, zero_mul, one_mul, add_zero, zero_add, neg_zero, sub_zero, neg_neg]
        try ring
  · simp only [lieBracket,
      fin3_mk0, fin3_mk1, fin3_mk2, fin4_mk0, fin4_mk1, fin4_mk2, fin4_mk3, fin7_mk0, fin7_mk1, fin7_mk2, fin7_mk3, fin7_mk4, fin7_mk5, fin7_mk6,
      vec3_at0, vec3_at1, vec3_at2, vec4_at0, vec4_at1, vec4_at2, vec4_at3, vec7_at0, vec7_at1, vec7_at2, vec7_at3, vec7_at4, vec7_at5, vec7_at6]

/-- Modelled from the spec (§4.4 step 1; rxso3.hpp is not in the sources):
the Rotation-Scale angle-reporting exponential of the 4-vector (ω, σ).  It
reports the rotation angle theta = ‖ω‖ and produces the element whose scale
(quaternion norm) is exp(σ) and whose orientation is the rotation by theta
about the axis ω (the identity rotation when theta = 0). -/
def expAndTheta (ops : ScalarOps α) (omega : Fin 3 → α) (sigma : α) :
    Quat α × α :=
  let theta :=
    ops.sqrt (omega 0 * omega 0 + omega 1 * omega 1 + omega 2 * omega 2)
  let s := ops.exp sigma
  let rot : Quat α :=
    if theta = 0 then ⟨1, 0, 0, 0⟩
    else
      ⟨ops.cos (theta / 2), ops.sin (theta / 2) / theta * omega 0,
       ops.sin (theta / 2) / theta * omega 1,
       ops.sin (theta / 2) / theta * omega 2⟩
  (⟨s * rot.w, s * rot.x, s * rot.y, s * rot.z⟩, theta)

/-- Group exponential (sim3.hpp lines 380-390): obtain the Rotation-Scale
element and theta from the collaborator's angle-reporting exponential of the
tail 4-vector (ω, σ), build Ω = skew(ω), and return the element with
translation `calcW(theta, σ, scale, Ω) · υ`. -/
def Sim3.exp (ops : ScalarOps α) (a : Fin 7 → α) : Sim3 α :=
  let upsilon : Fin 3 → α := ![a 0, a 1, a 2]
  let omega : Fin 3 → α := ![a 3, a 4, a 5]
  let sigma := a 6
  let rt := expAndTheta ops omega sigma
  let Omega := so3hat omega
  let W := calcW ops rt.2 sigma (Quat.scale ops rt.1) Omega
  ⟨rt.1, W.mulVec upsilon⟩

/-- Claim C5 (spec Scenario B): for the tangent vector
a = (υ=(1,0,0), ω=0, σ=ln 2), exp(a) has translation exactly
((2−1)/ln 2, 0, 0) (≈ (1.4427, 0, 0)), scale 2, and the identity rotation
matrix. -/
theorem C5_scenarioB :
    (Sim3.exp (⟨Real.sin, Real.cos, Real.exp, Real.sqrt, 1 / 10 ^ 10⟩ : ScalarOps ℝ)
          ![1, 0, 0, 0, 0, 0, Real.log 2]).translation =
        ![(2 - 1) / Real.log 2, 0, 0] ∧
      Quat.scale (⟨Real.sin, Real.cos, Real.exp, Real.sqrt, 1 / 10 ^ 10⟩ : ScalarOps ℝ)
        (Sim3.exp (⟨Real.sin, Real.cos, Real.exp, Real.sqrt, 1 / 10 ^ 10⟩ : ScalarOps ℝ)
            ![1, 0, 0, 0, 0, 0, Real.log 2]).rxso3 = 2 ∧
      Quat.rotMatrix
        (Sim3.exp (⟨Real.sin, Real.cos, Real.exp, Real.sqrt, 1 / 10 ^ 10⟩ : ScalarOps ℝ)
            ![1, 0, 0, 0, 0, 0, Real.log 2]).rxso3 = 1 := by
  have hET : expAndTheta
      (⟨Real.sin, Real.cos, Real.exp, Real.sqrt, 1 / 10 ^ 10⟩ : ScalarOps ℝ)
      ![0, 0, 0] (Real.log 2) = (⟨2, 0, 0, 0⟩, 0) := by
    simp only [expAndTheta, vec3_at0, vec3_at1, vec3_at2]
    norm_num [Real.exp_log]
  have hscale : Quat.scale
      (⟨Real.sin, Real.cos, Real.exp, Real.sqrt, 1 / 10 ^ 10⟩ : ScalarOps ℝ)
      (⟨2, 0, 0, 0⟩ : Quat ℝ) = 2 := by
    rw [Quat.scale, Quat.normSq]
    rw [show ((2 : ℝ) * 2 + 0 * 0 + 0 * 0 + 0 * 0) = 2 ^ 2 by norm_num]
    exact Real.sqrt_sq (by norm_num)
  have hOm : so3hat (![0, 0, 0] : Fin 3 → ℝ) = 0 := by
    ext i j
    fin_cases i <;> fin_cases j <;>
      simp only [so3hat, Matrix.of_apply, Matrix.zero_apply, vec3_at0,
        vec3_at1, vec3_at2, fin3_mk0, fin3_mk1, fin3_mk2, neg_zero]
  have hsig : calcW_sigma_small (((10 : ℝ) ^ 10)⁻¹)
      (Real.log 2) = false := by
    simp only [calcW_sigma_small, decide_eq_false_iff_not, not_lt]
    rw [abs_of_pos (Real.log_pos (by norm_num))]
    have h9 := Real.log_two_gt_d9
    norm_num at h9 ⊢
    linarith
  have hth : calcW_theta_small (((10 : ℝ) ^ 10)⁻¹) (0 : ℝ) = true := by
    simp only [calcW_theta_small, decide_eq_true_eq, abs_zero]
    norm_num
  have hW : calcW
      (⟨Real.sin, Real.cos, Real.exp, Real.sqrt, 1 / 10 ^ 10⟩ : ScalarOps ℝ)
      0 (Real.log 2) 2 (0 : Matrix (Fin 3) (Fin 3) ℝ) =
      ((2 - 1) / Real.log 2) • (1 : Matrix (Fin 3) (Fin 3) ℝ) := by
    simp [calcW, hsig, hth]
  have hE : Sim3.exp
      (⟨Real.sin, Real.cos, Real.exp, Real.sqrt, 1 / 10 ^ 10⟩ : ScalarOps ℝ)
      ![1, 0, 0, 0, 0, 0, Real.log 2] =
      ⟨⟨2, 0, 0, 0⟩, ![(2 - 1) / Real.log 2, 0, 0]⟩ := by
    simp only [Sim3.exp, vec7_at0, vec7_at1, vec7_at2, vec7_at3, vec7_at4,
      vec7_at5, vec7_at6, hET, hOm, hscale, hW]
    congr 1
    funext i
    fin_cases i <;>
      · simp only [Matrix.mulVec, Matrix.dotProduct, Fin.sum_univ_three,
          Matrix.smul_apply, Matrix.one_fin_three, Matrix.of_apply,
          vec3_at0, vec3_at1, vec3_at2, fin3_mk0, fin3_mk1, fin3_mk2,
          smul_eq_mul, mul_zero, mul_one, zero_mul, one_mul, add_zero,
          zero_add]
        try norm_num
  refine ⟨?_, ?_, ?_⟩
  · rw [hE]
  · rw [hE]
    exact hscale
  · rw [hE]
    ext i j
    fin_cases i <;> fin_cases j <;>
      · simp only [Quat.rotMatrix, Quat.normSq, Matrix.smul_apply,
          Matrix.of_apply, Matrix.one_fin_three, vec3_at0, vec3_at1, vec3_at2,
          fin3_mk0, fin3_mk1, fin3_mk2]
        norm_num

/-- If all three components vanish, the skew matrix is zero. -/
theorem so3hat_eq_zero (v : Fin 3 → α) (h0 : v 0 = 0) (h1 : v 1 = 0) (h2 : v 2 = 0) :
    so3hat v = 0 := by
  ext i j
  fin_cases i <;> fin_cases j <;>
    simp only [so3hat, Matrix.of_apply, Matrix.zero_apply, vec3_at0, vec3_at1,
      vec3_at2, fin3_mk0, fin3_mk1, fin3_mk2, h0, h1, h2, neg_zero]

set_option maxHeartbeats 1600000 in
/-- Product of two polynomials in Ω = skew(ω), using Ω³ = −(ω·ω)Ω: the product
of aΩ + bΩ² + cI and AΩ + BΩ² + CI collapses back to the same shape. -/
theorem so3hat_poly_mul (ω : Fin 3 → α) (t2 a b c A B C : α)
    (h : ω 0 * ω 0 + ω 1 * ω 1 + ω 2 * ω 2 = t2) :
    (a • so3hat ω + b • (so3hat ω * so3hat ω) + c • (1 : Matrix (Fin 3) (Fin 3) α)) *
      (A • so3hat ω + B • (so3hat ω * so3hat ω) + C • (1 : Matrix (Fin 3) (Fin 3) α)) =
    (a * C + c * A - t2 * (a * B + b * A)) • so3hat ω +
      (a * A + b * C + c * B - t2 * (b * B)) • (so3hat ω * so3hat ω) +
      (c * C) • (1 : Matrix (Fin 3) (Fin 3) α) := by
  subst h
  ext i j
  fin_cases i <;> fin_cases j <;>
    · simp only [Matrix.mul_apply, Fin.sum_univ_three, Matrix.add_apply,
        Matrix.smul_apply, Matrix.one_fin_three, so3hat, Matrix.of_apply,
        vec3_at0, vec3_at1, vec3_at2, fin3_mk0, fin3_mk1, fin3_mk2, smul_eq_mul]
      ring



/-- A coefficient combination with zero Ω-parts and unit I-part is the identity. -/
theorem combo_eq_one (Om : Matrix (Fin 3) (Fin 3) ℝ) (x y z : ℝ)
    (hx : x = 0) (hy : y = 0) (hz : z = 1) :
    x • Om + y • (Om * Om) + z • (1 : Matrix (Fin 3) (Fin 3) ℝ) = 1 := by
  rw [hx, hy, hz, zero_smul, zero_smul, one_smul, zero_add, zero_add]

set_option maxHeartbeats 12000000 in
/-- Central kernel identity: in every pair of branch regimes selected away from
the boundaries (σ = 0 exactly or |σ|, σ² both at least ε; θ = 0 exactly or
θ, θ² at least ε and θ < 2π), `calcWInv` is the exact left inverse of `calcW`
over ℝ, given scale = exp σ and θ² = ω·ω. -/
theorem calcWInv_mul_calcW (t g s : ℝ) (ω : Fin 3 → ℝ)
    (hωt : ω 0 * ω 0 + ω 1 * ω 1 + ω 2 * ω 2 = t * t)
    (ht0 : 0 ≤ t)
    (hs : s = Real.exp g)
    (hσ : g = 0 ∨ ((1 / 10 ^ 10 : ℝ) ≤ |g| ∧ (1 / 10 ^ 10 : ℝ) ≤ g * g))
    (hθ : t = 0 ∨ ((1 / 10 ^ 10 : ℝ) ≤ t ∧ (1 / 10 ^ 10 : ℝ) ≤ t * t ∧ t < 2 * Real.pi)) :
    calcWInv (⟨Real.sin, Real.cos, Real.exp, Real.sqrt, 1 / 10 ^ 10⟩ : ScalarOps ℝ)
        t g s (so3hat ω) *
      calcW (⟨Real.sin, Real.cos, Real.exp, Real.sqrt, 1 / 10 ^ 10⟩ : ScalarOps ℝ)
        t g s (so3hat ω) = 1 := by
  have heps : (0 : ℝ) < 1 / 10 ^ 10 := by norm_num
  rcases hθ with ht | ⟨ht1, ht2, ht3⟩
  · -- theta = 0 : Omega is the zero matrix
    subst ht
    have hsum : ω 0 * ω 0 + ω 1 * ω 1 + ω 2 * ω 2 = 0 := by
      rw [hωt]; ring
    have h0 : ω 0 = 0 := by nlinarith [mul_self_nonneg (ω 0), mul_self_nonneg (ω 1), mul_self_nonneg (ω 2)]
    have h1 : ω 1 = 0 := by nlinarith [mul_self_nonneg (ω 0), mul_self_nonneg (ω 1), mul_self_nonneg (ω 2)]
    have h2 : ω 2 = 0 := by nlinarith [mul_self_nonneg (ω 0), mul_self_nonneg (ω 1), mul_self_nonneg (ω 2)]
    rw [so3hat_eq_zero ω h0 h1 h2]
    have hbθ : calcW_theta_small ((1 : ℝ) / 10 ^ 10) 0 = true := by
      simp [calcW_theta_small]
    have hbθ' : calcWInv_theta_small ((1 : ℝ) / 10 ^ 10) ((0 : ℝ) * 0) = true := by
      simp [calcWInv_theta_small]
    rcases hσ with hg | ⟨hg1, hg2⟩
    · subst hg
      have hbσ : calcW_sigma_small ((1 : ℝ) / 10 ^ 10) 0 = true := by
        simp [calcW_sigma_small]
      have hbσ' : calcWInv_sigma_small ((1 : ℝ) / 10 ^ 10) 0 = true := by
        simp [calcWInv_sigma_small]
      have hW : calcW (⟨Real.sin, Real.cos, Real.exp, Real.sqrt, 1 / 10 ^ 10⟩ : ScalarOps ℝ)
          0 0 s (0 : Matrix (Fin 3) (Fin 3) ℝ) = 1 := by
        simp only [calcW, hbσ, hbθ, Bool.false_eq_true, if_false, if_true]
        simp
      have hWI : calcWInv (⟨Real.sin, Real.cos, Real.exp, Real.sqrt, 1 / 10 ^ 10⟩ : ScalarOps ℝ)
          0 0 s (0 : Matrix (Fin 3) (Fin 3) ℝ) = 1 := by
        simp only [calcWInv, hbσ', hbθ', Bool.false_eq_true, if_false, if_true]
        simp
      rw [hW, hWI, mul_one]
    · have hgne : g ≠ 0 := by
        intro hc; rw [hc] at hg1; simp at hg1; linarith
      have hs1 : s - 1 ≠ 0 := by
        rw [hs]
        intro hc
        have : Real.exp g = 1 := by linarith [sub_eq_zero.mp hc]
        exact hgne ((Real.exp_eq_one_iff g).mp this)
      have hbσ : calcW_sigma_small ((1 : ℝ) / 10 ^ 10) g = false := by
        simp only [calcW_sigma_small, decide_eq_false_iff_not, not_lt]
        exact hg1
      have hbσ' : calcWInv_sigma_small ((1 : ℝ) / 10 ^ 10) g = false := by
        simp only [calcWInv_sigma_small, decide_eq_false_iff_not, not_lt]
        calc (1 / 10 ^ 10 : ℝ) ≤ g * g := hg2
        _ ≤ |g * g| := le_abs_self _
      have hW : calcW (⟨Real.sin, Real.cos, Real.exp, Real.sqrt, 1 / 10 ^ 10⟩ : ScalarOps ℝ)
          0 g s (0 : Matrix (Fin 3) (Fin 3) ℝ) = ((s - 1) / g) • 1 := by
        simp only [calcW, hbσ, hbθ, Bool.false_eq_true, if_false, if_true]
        simp
      have hWI : calcWInv (⟨Real.sin, Real.cos, Real.exp, Real.sqrt, 1 / 10 ^ 10⟩ : ScalarOps ℝ)
          0 g s (0 : Matrix (Fin 3) (Fin 3) ℝ) = (g / (s - 1)) • 1 := by
        simp only [calcWInv, hbσ', hbθ', Bool.false_eq_true, if_false, if_true]
        simp
      rw [hW, hWI, smul_mul_smul_comm, mul_one]
      have : g / (s - 1) * ((s - 1) / g) = 1 := by
        field_simp
      rw [this, one_smul]
  · -- theta generic
    have htpos : 0 < t := lt_of_lt_of_le heps ht1
    have htne : t ≠ 0 := ne_of_gt htpos
    have hbθ : calcW_theta_small ((1 : ℝ) / 10 ^ 10) t = false := by
      simp only [calcW_theta_small, decide_eq_false_iff_not, not_lt]
      rw [abs_of_pos htpos]
      exact ht1
    have hbθ' : calcWInv_theta_small ((1 : ℝ) / 10 ^ 10) (t * t) = false := by
      simp only [calcWInv_theta_small, decide_eq_false_iff_not, not_lt]
      calc (1 / 10 ^ 10 : ℝ) ≤ t * t := ht2
      _ ≤ |t * t| := le_abs_self _
    have hsq : Real.sin t ^ 2 = 1 - Real.cos t ^ 2 := by
      linear_combination Real.sin_sq_add_cos_sq t
    rcases hσ with hg | ⟨hg1, hg2⟩
    · -- sigma = 0
      subst hg
      have hco1 : Real.cos t - 1 ≠ 0 := by
        intro hc
        have hcos : Real.cos t = 1 := by linarith [sub_eq_zero.mp hc]
        have hzero := (Real.cos_eq_one_iff_of_lt_of_lt
          (by linarith [Real.pi_pos] : -(2 * Real.pi) < t) ht3).mp hcos
        exact htne hzero
      have hbσ : calcW_sigma_small ((1 : ℝ) / 10 ^ 10) 0 = true := by
        simp [calcW_sigma_small]
      have hbσ' : calcWInv_sigma_small ((1 : ℝ) / 10 ^ 10) 0 = true := by
        simp [calcWInv_sigma_small]
      have hW : calcW (⟨Real.sin, Real.cos, Real.exp, Real.sqrt, 1 / 10 ^ 10⟩ : ScalarOps ℝ) t 0 s (so3hat ω) =
          ((1 - Real.cos t) / (t * t)) • so3hat ω +
            ((t - Real.sin t) / (t * t * t)) • (so3hat ω * so3hat ω) +
            (1 : ℝ) • (1 : Matrix (Fin 3) (Fin 3) ℝ) := by
        simp only [calcW, hbσ, hbθ, Bool.false_eq_true, if_false, if_true]
        try rfl
      have hWI : calcWInv (⟨Real.sin, Real.cos, Real.exp, Real.sqrt, 1 / 10 ^ 10⟩ : ScalarOps ℝ) t 0 s (so3hat ω) =
          (-(1 / 2) : ℝ) • so3hat ω +
            ((t * Real.sin t + 2 * Real.cos t - 2) /
              (2 * (t * t) * (Real.cos t - 1))) • (so3hat ω * so3hat ω) +
            ((1 : ℝ) - 1 / 2 * 0) • (1 : Matrix (Fin 3) (Fin 3) ℝ) := by
        simp only [calcWInv, hbσ', hbθ', Bool.false_eq_true, if_false, if_true]
        try rfl
      rw [hW, hWI, so3hat_poly_mul ω (t * t) _ _ _ _ _ _ hωt]
      apply combo_eq_one
      · field_simp
        ring_nf
        try simp only [hsq]
        try ring
      · field_simp
        ring_nf
        try simp only [hsq]
        try ring
      · norm_num
    · -- sigma generic
      have hgne : g ≠ 0 := by
        intro hc
        rw [hc] at hg1
        simp at hg1
        linarith
      have hspos : 0 < s := hs ▸ Real.exp_pos g
      have hs1 : s - 1 ≠ 0 := by
        rw [hs]
        intro hc
        have h1 : Real.exp g = 1 := by linarith [sub_eq_zero.mp hc]
        exact hgne ((Real.exp_eq_one_iff g).mp h1)
      have hbσ : calcW_sigma_small ((1 : ℝ) / 10 ^ 10) g = false := by
        simp only [calcW_sigma_small, decide_eq_false_iff_not, not_lt]
        exact hg1
      have hbσ' : calcWInv_sigma_small ((1 : ℝ) / 10 ^ 10) g = false := by
        simp only [calcWInv_sigma_small, decide_eq_false_iff_not, not_lt]
        calc (1 / 10 ^ 10 : ℝ) ≤ g * g := hg2
        _ ≤ |g * g| := le_abs_self _
      have hd : s * s - 2 * (s * Real.cos t) + 1 ≠ 0 := by
        have h1 : Real.cos t ≤ 1 := Real.cos_le_one t
        have h2 : 0 < (s - 1) ^ 2 :=
          lt_of_le_of_ne (sq_nonneg _) (Ne.symm (pow_ne_zero 2 hs1))
        nlinarith
      have hcu : s * s * s - 2 * s * (s * Real.cos t) - s * s + 2 * (s * Real.cos t) + s - 1 ≠ 0 := by
        have hfac : s * s * s - 2 * s * (s * Real.cos t) - s * s + 2 * (s * Real.cos t) + s - 1 =
            (s - 1) * (s * s - 2 * (s * Real.cos t) + 1) := by ring
        rw [hfac]
        exact mul_ne_zero hs1 hd
      have hc4 : t * t + g * g ≠ 0 := by positivity
      have hW : calcW (⟨Real.sin, Real.cos, Real.exp, Real.sqrt, 1 / 10 ^ 10⟩ : ScalarOps ℝ) t g s (so3hat ω) =
          ((s * Real.sin t * g + (1 - s * Real.cos t) * t) / (t * (t * t + g * g))) • so3hat ω +
            (((s - 1) / g - ((s * Real.cos t - 1) * g + s * Real.sin t * t) / (t * t + g * g)) *
              1 / (t * t)) • (so3hat ω * so3hat ω) +
            ((s - 1) / g) • 1 := by
        simp only [calcW, hbσ, hbθ, Bool.false_eq_true, if_false, if_true]
        try rfl
      have hWI : calcWInv (⟨Real.sin, Real.cos, Real.exp, Real.sqrt, 1 / 10 ^ 10⟩ : ScalarOps ℝ) t g s (so3hat ω) =
          ((t * (s * Real.cos t) - t - g * (s * Real.sin t)) /
              (t * (s * s - 2 * (s * Real.cos t) + 1))) • so3hat ω +
            (-s * (t * (s * Real.sin t) - t * Real.sin t + g * (s * Real.cos t) - s * g +
                g * Real.cos t - g) /
              (t * t * (s * s * s - 2 * s * (s * Real.cos t) - s * s + 2 * (s * Real.cos t) +
                s - 1))) • (so3hat ω * so3hat ω) +
            (g / (s - 1)) • 1 := by
        simp only [calcWInv, hbσ', hbθ', Bool.false_eq_true, if_false, if_true]
        try rfl
      rw [hW, hWI, so3hat_poly_mul ω (t * t) _ _ _ _ _ _ hωt]
      apply combo_eq_one
      · field_simp
        ring_nf
        try simp only [hsq]
        try ring
      · field_simp
        ring_nf
        try simp only [hsq]
        try ring
      · field_simp

/-- Modelled from the spec (§4.4 inverse step; rxso3.hpp is not in the
sources): the Rotation-Scale angle-reporting logarithm.  The scale is the
quaternion norm s, σ = log s, the angle is θ = 2·arccos(w/s), and the
rotation vector is (θ / sin(θ/2)) · (x,y,z)/s, with ω = 0 at θ = 0.  The
scalar log and arccos are passed explicitly as `rlog` and `racos`. -/
def logAndTheta (ops : ScalarOps α) (rlog racos : α → α) (q : Quat α) :
    (Fin 4 → α) × α :=
  let s := ops.sqrt (Quat.normSq q)
  let sigma := rlog s
  let theta := 2 * racos (q.w / s)
  let omega : Fin 3 → α :=
    if theta = 0 then ![0, 0, 0]
    else (theta / ops.sin (theta / 2)) • ![q.x / s, q.y / s, q.z / s]
  (![omega 0, omega 1, omega 2, sigma], theta)

theorem expAndTheta_theta (ops : ScalarOps α) (omega : Fin 3 → α) (sigma : α) :
    (expAndTheta ops omega sigma).2 =
      ops.sqrt (omega 0 * omega 0 + omega 1 * omega 1 + omega 2 * omega 2) := rfl

set_option maxHeartbeats 1000000 in
theorem expAndTheta_normSq (ω : Fin 3 → ℝ) (σ : ℝ) :
    Quat.normSq (expAndTheta (⟨Real.sin, Real.cos, Real.exp, Real.sqrt, 1 / 10 ^ 10⟩ : ScalarOps ℝ) ω σ).1 =
      Real.exp σ * Real.exp σ := by
  simp only [expAndTheta, Quat.normSq]
  by_cases hteq : Real.sqrt (ω 0 * ω 0 + ω 1 * ω 1 + ω 2 * ω 2) = 0
  · rw [if_pos hteq]
    try simp only
    ring
  · rw [if_neg hteq]
    try simp only
    have hne2 : ω 0 ^ 2 + ω 1 ^ 2 + ω 2 ^ 2 ≠ 0 := by
      intro h
      apply hteq
      rw [show ω 0 * ω 0 + ω 1 * ω 1 + ω 2 * ω 2 = ω 0 ^ 2 + ω 1 ^ 2 + ω 2 ^ 2 from by ring,
        h, Real.sqrt_zero]
    have hinv : (ω 0 ^ 2 + ω 1 ^ 2 + ω 2 ^ 2) * (ω 0 ^ 2 + ω 1 ^ 2 + ω 2 ^ 2)⁻¹ = 1 :=
      mul_inv_cancel₀ hne2
    have hsq2 : Real.sin (Real.sqrt (ω 0 ^ 2 + ω 1 ^ 2 + ω 2 ^ 2) * (1 / 2)) ^ 2 =
        1 - Real.cos (Real.sqrt (ω 0 ^ 2 + ω 1 ^ 2 + ω 2 ^ 2) * (1 / 2)) ^ 2 := by
      linear_combination Real.sin_sq_add_cos_sq (Real.sqrt (ω 0 ^ 2 + ω 1 ^ 2 + ω 2 ^ 2) * (1 / 2))
    have hss : Real.sqrt (ω 0 ^ 2 + ω 1 ^ 2 + ω 2 ^ 2) ^ 2 = ω 0 ^ 2 + ω 1 ^ 2 + ω 2 ^ 2 :=
      Real.sq_sqrt (by positivity)
    field_simp
    ring_nf
    simp only [hsq2, hss]
    field_simp [hne2]
    ring

set_option maxHeartbeats 1600000 in
theorem logAndTheta_expAndTheta (ω : Fin 3 → ℝ) (σ : ℝ)
    (h2π : Real.sqrt (ω 0 * ω 0 + ω 1 * ω 1 + ω 2 * ω 2) < 2 * Real.pi) :
    logAndTheta (⟨Real.sin, Real.cos, Real.exp, Real.sqrt, 1 / 10 ^ 10⟩ : ScalarOps ℝ) Real.log Real.arccos (expAndTheta (⟨Real.sin, Real.cos, Real.exp, Real.sqrt, 1 / 10 ^ 10⟩ : ScalarOps ℝ) ω σ).1 =
      (![ω 0, ω 1, ω 2, σ], Real.sqrt (ω 0 * ω 0 + ω 1 * ω 1 + ω 2 * ω 2)) := by
  have hE : (0 : ℝ) < Real.exp σ := Real.exp_pos σ
  have hs : Real.sqrt (Quat.normSq (expAndTheta (⟨Real.sin, Real.cos, Real.exp, Real.sqrt, 1 / 10 ^ 10⟩ : ScalarOps ℝ) ω σ).1) = Real.exp σ := by
    rw [expAndTheta_normSq]
    exact Real.sqrt_mul_self hE.le
  have hsum0 : (0 : ℝ) ≤ ω 0 * ω 0 + ω 1 * ω 1 + ω 2 * ω 2 :=
    add_nonneg (add_nonneg (mul_self_nonneg _) (mul_self_nonneg _)) (mul_self_nonneg _)
  have htt : Real.sqrt (ω 0 * ω 0 + ω 1 * ω 1 + ω 2 * ω 2) *
      Real.sqrt (ω 0 * ω 0 + ω 1 * ω 1 + ω 2 * ω 2) =
      ω 0 * ω 0 + ω 1 * ω 1 + ω 2 * ω 2 := Real.mul_self_sqrt hsum0
  by_cases hteq : Real.sqrt (ω 0 * ω 0 + ω 1 * ω 1 + ω 2 * ω 2) = 0
  · have hsum : ω 0 * ω 0 + ω 1 * ω 1 + ω 2 * ω 2 = 0 := by
      rw [hteq] at htt
      linarith [htt]
    have hω0 : ω 0 = 0 := by
      nlinarith [mul_self_nonneg (ω 0), mul_self_nonneg (ω 1), mul_self_nonneg (ω 2)]
    have hω1 : ω 1 = 0 := by
      nlinarith [mul_self_nonneg (ω 0), mul_self_nonneg (ω 1), mul_self_nonneg (ω 2)]
    have hω2 : ω 2 = 0 := by
      nlinarith [mul_self_nonneg (ω 0), mul_self_nonneg (ω 1), mul_self_nonneg (ω 2)]
    have hq : (expAndTheta (⟨Real.sin, Real.cos, Real.exp, Real.sqrt, 1 / 10 ^ 10⟩ : ScalarOps ℝ) ω σ).1 =
        ⟨Real.exp σ * 1, Real.exp σ * 0, Real.exp σ * 0, Real.exp σ * 0⟩ := by
      simp only [expAndTheta]
      rw [if_pos hteq]
    have h1 : Real.exp σ * 1 / Real.exp σ = 1 := by
      rw [mul_one]
      exact div_self (ne_of_gt hE)
    simp only [logAndTheta, hs]
    simp only [hq, h1, Real.arccos_one, mul_zero, Real.log_exp]
    simp only [if_true]
    simp only [Prod.mk.injEq]
    constructor
    · funext i
      fin_cases i <;>
        simp [hω0, hω1, hω2, vec4_at0, vec4_at1, vec4_at2, vec4_at3, vec3_at0, vec3_at1, vec3_at2]
    · exact hteq.symm
  · have ht0 : 0 < Real.sqrt (ω 0 * ω 0 + ω 1 * ω 1 + ω 2 * ω 2) :=
      lt_of_le_of_ne (Real.sqrt_nonneg _) (Ne.symm hteq)
    have hhalf0 : 0 ≤ Real.sqrt (ω 0 * ω 0 + ω 1 * ω 1 + ω 2 * ω 2) / 2 := by linarith
    have hhalfπ : Real.sqrt (ω 0 * ω 0 + ω 1 * ω 1 + ω 2 * ω 2) / 2 < Real.pi := by linarith
    have hsin : 0 < Real.sin (Real.sqrt (ω 0 * ω 0 + ω 1 * ω 1 + ω 2 * ω 2) / 2) := by
      apply Real.sin_pos_of_pos_of_lt_pi
      · linarith
      · exact hhalfπ
    have hq : (expAndTheta (⟨Real.sin, Real.cos, Real.exp, Real.sqrt, 1 / 10 ^ 10⟩ : ScalarOps ℝ) ω σ).1 =
        ⟨Real.exp σ * Real.cos (Real.sqrt (ω 0 * ω 0 + ω 1 * ω 1 + ω 2 * ω 2) / 2),
         Real.exp σ * (Real.sin (Real.sqrt (ω 0 * ω 0 + ω 1 * ω 1 + ω 2 * ω 2) / 2) /
           Real.sqrt (ω 0 * ω 0 + ω 1 * ω 1 + ω 2 * ω 2) * ω 0),
         Real.exp σ * (Real.sin (Real.sqrt (ω 0 * ω 0 + ω 1 * ω 1 + ω 2 * ω 2) / 2) /
           Real.sqrt (ω 0 * ω 0 + ω 1 * ω 1 + ω 2 * ω 2) * ω 1),
         Real.exp σ * (Real.sin (Real.sqrt (ω 0 * ω 0 + ω 1 * ω 1 + ω 2 * ω 2) / 2) /
           Real.sqrt (ω 0 * ω 0 + ω 1 * ω 1 + ω 2 * ω 2) * ω 2)⟩ := by
      simp only [expAndTheta]
      rw [if_neg hteq]
    have h1 : Real.exp σ * Real.cos (Real.sqrt (ω 0 * ω 0 + ω 1 * ω 1 + ω 2 * ω 2) / 2) /
        Real.exp σ = Real.cos (Real.sqrt (ω 0 * ω 0 + ω 1 * ω 1 + ω 2 * ω 2) / 2) :=
      mul_div_cancel_left₀ _ (ne_of_gt hE)
    have h2 : Real.arccos (Real.cos (Real.sqrt (ω 0 * ω 0 + ω 1 * ω 1 + ω 2 * ω 2) / 2)) =
        Real.sqrt (ω 0 * ω 0 + ω 1 * ω 1 + ω 2 * ω 2) / 2 :=
      Real.arccos_cos hhalf0 (le_of_lt hhalfπ)
    have h3 : 2 * (Real.sqrt (ω 0 * ω 0 + ω 1 * ω 1 + ω 2 * ω 2) / 2) =
        Real.sqrt (ω 0 * ω 0 + ω 1 * ω 1 + ω 2 * ω 2) := by ring
    simp only [logAndTheta, hs]
    simp only [hq, h1, h2, h3, Real.log_exp]
    rw [if_neg hteq]
    simp only [Prod.mk.injEq]
    constructor
    · funext i
      fin_cases i <;>
        (simp only [vec4_at0, vec4_at1, vec4_at2, vec4_at3, Pi.smul_apply, vec3_at0, vec3_at1,
          vec3_at2, smul_eq_mul]
         try rfl
         try (field_simp
              ring))
    · trivial

set_option maxHeartbeats 1600000 in
theorem expAndTheta_logAndTheta (q : Quat ℝ) (hq : 0 < Quat.normSq q)
    (hwlo : -1 < q.w / Real.sqrt (Quat.normSq q)) :
    expAndTheta (⟨Real.sin, Real.cos, Real.exp, Real.sqrt, 1 / 10 ^ 10⟩ : ScalarOps ℝ)
        ![(logAndTheta (⟨Real.sin, Real.cos, Real.exp, Real.sqrt, 1 / 10 ^ 10⟩ : ScalarOps ℝ) Real.log Real.arccos q).1 0,
          (logAndTheta (⟨Real.sin, Real.cos, Real.exp, Real.sqrt, 1 / 10 ^ 10⟩ : ScalarOps ℝ) Real.log Real.arccos q).1 1,
          (logAndTheta (⟨Real.sin, Real.cos, Real.exp, Real.sqrt, 1 / 10 ^ 10⟩ : ScalarOps ℝ) Real.log Real.arccos q).1 2]
        ((logAndTheta (⟨Real.sin, Real.cos, Real.exp, Real.sqrt, 1 / 10 ^ 10⟩ : ScalarOps ℝ) Real.log Real.arccos q).1 3) =
      (q, (logAndTheta (⟨Real.sin, Real.cos, Real.exp, Real.sqrt, 1 / 10 ^ 10⟩ : ScalarOps ℝ) Real.log Real.arccos q).2) ∧
    (logAndTheta (⟨Real.sin, Real.cos, Real.exp, Real.sqrt, 1 / 10 ^ 10⟩ : ScalarOps ℝ) Real.log Real.arccos q).1 0 *
        (logAndTheta (⟨Real.sin, Real.cos, Real.exp, Real.sqrt, 1 / 10 ^ 10⟩ : ScalarOps ℝ) Real.log Real.arccos q).1 0 +
      (logAndTheta (⟨Real.sin, Real.cos, Real.exp, Real.sqrt, 1 / 10 ^ 10⟩ : ScalarOps ℝ) Real.log Real.arccos q).1 1 *
        (logAndTheta (⟨Real.sin, Real.cos, Real.exp, Real.sqrt, 1 / 10 ^ 10⟩ : ScalarOps ℝ) Real.log Real.arccos q).1 1 +
      (logAndTheta (⟨Real.sin, Real.cos, Real.exp, Real.sqrt, 1 / 10 ^ 10⟩ : ScalarOps ℝ) Real.log Real.arccos q).1 2 *
        (logAndTheta (⟨Real.sin, Real.cos, Real.exp, Real.sqrt, 1 / 10 ^ 10⟩ : ScalarOps ℝ) Real.log Real.arccos q).1 2 =
      (logAndTheta (⟨Real.sin, Real.cos, Real.exp, Real.sqrt, 1 / 10 ^ 10⟩ : ScalarOps ℝ) Real.log Real.arccos q).2 *
        (logAndTheta (⟨Real.sin, Real.cos, Real.exp, Real.sqrt, 1 / 10 ^ 10⟩ : ScalarOps ℝ) Real.log Real.arccos q).2 := by
  obtain ⟨w, x, y, z⟩ := q
  have hs0 : 0 < Real.sqrt (Quat.normSq ⟨w, x, y, z⟩) := Real.sqrt_pos.mpr hq
  have hss : Real.sqrt (Quat.normSq ⟨w, x, y, z⟩) * Real.sqrt (Quat.normSq ⟨w, x, y, z⟩) =
      Quat.normSq ⟨w, x, y, z⟩ := Real.mul_self_sqrt hq.le
  have hnq : Quat.normSq (⟨w, x, y, z⟩ : Quat ℝ) = w * w + x * x + y * y + z * z := rfl
  have hwS : -Real.sqrt (Quat.normSq ⟨w, x, y, z⟩) < w := by
    have h := (lt_div_iff hs0).mp hwlo
    linarith [h]
  have hwle : w ≤ Real.sqrt (Quat.normSq ⟨w, x, y, z⟩) := by
    nlinarith [hss, hnq, hwS, mul_self_nonneg x, mul_self_nonneg y, mul_self_nonneg z]
  have hc1 : w / Real.sqrt (Quat.normSq ⟨w, x, y, z⟩) ≤ 1 := by
    rw [div_le_one hs0]
    exact hwle
  have hcm1 : -1 ≤ w / Real.sqrt (Quat.normSq ⟨w, x, y, z⟩) := le_of_lt hwlo
  by_cases hθ0 : 2 * Real.arccos (w / Real.sqrt (Quat.normSq ⟨w, x, y, z⟩)) = 0
  · have harc : Real.arccos (w / Real.sqrt (Quat.normSq ⟨w, x, y, z⟩)) = 0 := by linarith
    have hcge : 1 ≤ w / Real.sqrt (Quat.normSq ⟨w, x, y, z⟩) :=
      (Real.arccos_eq_zero.mp harc)
    have hceq : w / Real.sqrt (Quat.normSq ⟨w, x, y, z⟩) = 1 := le_antisymm hc1 hcge
    have hw : w = Real.sqrt (Quat.normSq ⟨w, x, y, z⟩) :=
      (div_eq_one_iff_eq (ne_of_gt hs0)).mp hceq
    have hx : x = 0 := by nlinarith [hss, hnq, mul_self_nonneg y, mul_self_nonneg z]
    have hy : y = 0 := by nlinarith [hss, hnq, mul_self_nonneg x, mul_self_nonneg z]
    have hz : z = 0 := by nlinarith [hss, hnq, mul_self_nonneg x, mul_self_nonneg y]
    have hL : logAndTheta (⟨Real.sin, Real.cos, Real.exp, Real.sqrt, 1 / 10 ^ 10⟩ : ScalarOps ℝ) Real.log Real.arccos (⟨w, x, y, z⟩ : Quat ℝ) =
        (![0, 0, 0, Real.log (Real.sqrt (Quat.normSq ⟨w, x, y, z⟩))], 0) := by
      simp only [logAndTheta]
      rw [if_pos hθ0, hθ0]
      simp only [vec3_at0, vec3_at1, vec3_at2]
    rw [hL]
    simp only [vec4_at0, vec4_at1, vec4_at2, vec4_at3]
    constructor
    · have hzero : Real.sqrt ((0 : ℝ) * 0 + 0 * 0 + 0 * 0) = 0 := by
        rw [show (0 : ℝ) * 0 + 0 * 0 + 0 * 0 = 0 from by ring, Real.sqrt_zero]
      simp only [expAndTheta, vec3_at0, vec3_at1, vec3_at2, hzero]
      simp only [if_true]
      simp only [Prod.mk.injEq, Quat.mk.injEq]
      refine ⟨⟨?_, ?_, ?_, ?_⟩, trivial⟩
      · rw [Real.exp_log hs0, mul_one]
        exact hw.symm
      · rw [mul_zero]
        exact hx.symm
      · rw [mul_zero]
        exact hy.symm
      · rw [mul_zero]
        exact hz.symm
    · ring
  · have harc0 : 0 < Real.arccos (w / Real.sqrt (Quat.normSq ⟨w, x, y, z⟩)) := by
      rcases lt_or_eq_of_le (Real.arccos_nonneg (w / Real.sqrt (Quat.normSq ⟨w, x, y, z⟩)))
        with h | h
      · exact h
      · exact absurd (by rw [← h, mul_zero]) hθ0
    have harcπ : Real.arccos (w / Real.sqrt (Quat.normSq ⟨w, x, y, z⟩)) < Real.pi :=
      lt_of_le_of_ne (Real.arccos_le_pi _)
        (fun h => absurd (Real.arccos_eq_pi.mp h) (not_le.mpr hwlo))
    have hclt1 : w / Real.sqrt (Quat.normSq ⟨w, x, y, z⟩) < 1 := Real.arccos_pos.mp harc0
    have hcos : Real.cos (Real.arccos (w / Real.sqrt (Quat.normSq ⟨w, x, y, z⟩))) =
        w / Real.sqrt (Quat.normSq ⟨w, x, y, z⟩) := Real.cos_arccos hcm1 hc1
    have hsinpos : 0 < Real.sin (Real.arccos (w / Real.sqrt (Quat.normSq ⟨w, x, y, z⟩))) :=
      Real.sin_pos_of_pos_of_lt_pi harc0 harcπ
    have hsin2 : Real.sin (Real.arccos (w / Real.sqrt (Quat.normSq ⟨w, x, y, z⟩))) *
        Real.sin (Real.arccos (w / Real.sqrt (Quat.normSq ⟨w, x, y, z⟩))) =
        1 - w / Real.sqrt (Quat.normSq ⟨w, x, y, z⟩) *
          (w / Real.sqrt (Quat.normSq ⟨w, x, y, z⟩)) := by
      have h := Real.sin_sq_add_cos_sq
        (Real.arccos (w / Real.sqrt (Quat.normSq ⟨w, x, y, z⟩)))
      rw [hcos] at h
      nlinarith [h]
    have hhalf : 2 * Real.arccos (w / Real.sqrt (Quat.normSq ⟨w, x, y, z⟩)) / 2 =
        Real.arccos (w / Real.sqrt (Quat.normSq ⟨w, x, y, z⟩)) := by ring
    have hL : logAndTheta (⟨Real.sin, Real.cos, Real.exp, Real.sqrt, 1 / 10 ^ 10⟩ : ScalarOps ℝ) Real.log Real.arccos (⟨w, x, y, z⟩ : Quat ℝ) =
        (![2 * Real.arccos (w / Real.sqrt (Quat.normSq ⟨w, x, y, z⟩)) /
             Real.sin (Real.arccos (w / Real.sqrt (Quat.normSq ⟨w, x, y, z⟩))) *
             (x / Real.sqrt (Quat.normSq ⟨w, x, y, z⟩)),
           2 * Real.arccos (w / Real.sqrt (Quat.normSq ⟨w, x, y, z⟩)) /
             Real.sin (Real.arccos (w / Real.sqrt (Quat.normSq ⟨w, x, y, z⟩))) *
             (y / Real.sqrt (Quat.normSq ⟨w, x, y, z⟩)),
           2 * Real.arccos (w / Real.sqrt (Quat.normSq ⟨w, x, y, z⟩)) /
             Real.sin (Real.arccos (w / Real.sqrt (Quat.normSq ⟨w, x, y, z⟩))) *
             (z / Real.sqrt (Quat.normSq ⟨w, x, y, z⟩)),
           Real.log (Real.sqrt (Quat.normSq ⟨w, x, y, z⟩))],
         2 * Real.arccos (w / Real.sqrt (Quat.normSq ⟨w, x, y, z⟩))) := by
      simp only [logAndTheta]
      rw [if_neg hθ0]
      simp only [Pi.smul_apply, vec3_at0, vec3_at1, vec3_at2, smul_eq_mul, hhalf]
    rw [hL]
    simp only [vec4_at0, vec4_at1, vec4_at2, vec4_at3]
    have hxyz : x * x + y * y + z * z =
        Real.sqrt (Quat.normSq ⟨w, x, y, z⟩) * Real.sqrt (Quat.normSq ⟨w, x, y, z⟩) - w * w := by
      rw [hss, hnq]
      ring
    have hsum : 2 * Real.arccos (w / Real.sqrt (Quat.normSq ⟨w, x, y, z⟩)) /
          Real.sin (Real.arccos (w / Real.sqrt (Quat.normSq ⟨w, x, y, z⟩))) *
          (x / Real.sqrt (Quat.normSq ⟨w, x, y, z⟩)) *
          (2 * Real.arccos (w / Real.sqrt (Quat.normSq ⟨w, x, y, z⟩)) /
            Real.sin (Real.arccos (w / Real.sqrt (Quat.normSq ⟨w, x, y, z⟩))) *
            (x / Real.sqrt (Quat.normSq ⟨w, x, y, z⟩))) +
        2 * Real.arccos (w / Real.sqrt (Quat.normSq ⟨w, x, y, z⟩)) /
          Real.sin (Real.arccos (w / Real.sqrt (Quat.normSq ⟨w, x, y, z⟩))) *
          (y / Real.sqrt (Quat.normSq ⟨w, x, y, z⟩)) *
          (2 * Real.arccos (w / Real.sqrt (Quat.normSq ⟨w, x, y, z⟩)) /
            Real.sin (Real.arccos (w / Real.sqrt (Quat.normSq ⟨w, x, y, z⟩))) *
            (y / Real.sqrt (Quat.normSq ⟨w, x, y, z⟩))) +
        2 * Real.arccos (w / Real.sqrt (Quat.normSq ⟨w, x, y, z⟩)) /
          Real.sin (Real.arccos (w / Real.sqrt (Quat.normSq ⟨w, x, y, z⟩))) *
          (z / Real.sqrt (Quat.normSq ⟨w, x, y, z⟩)) *
          (2 * Real.arccos (w / Real.sqrt (Quat.normSq ⟨w, x, y, z⟩)) /
            Real.sin (Real.arccos (w / Real.sqrt (Quat.normSq ⟨w, x, y, z⟩))) *
            (z / Real.sqrt (Quat.normSq ⟨w, x, y, z⟩))) =
        2 * Real.arccos (w / Real.sqrt (Quat.normSq ⟨w, x, y, z⟩)) *
          (2 * Real.arccos (w / Real.sqrt (Quat.normSq ⟨w, x, y, z⟩))) := by
      have hw2 : (w / Real.sqrt (Quat.normSq ⟨w, x, y, z⟩)) * (w / Real.sqrt (Quat.normSq ⟨w, x, y, z⟩)) * (Real.sqrt (Quat.normSq ⟨w, x, y, z⟩) * Real.sqrt (Quat.normSq ⟨w, x, y, z⟩)) = w * w := by
        field_simp
      have hsin2m : Real.sin (Real.arccos (w / Real.sqrt (Quat.normSq ⟨w, x, y, z⟩))) * Real.sin (Real.arccos (w / Real.sqrt (Quat.normSq ⟨w, x, y, z⟩))) * (Real.sqrt (Quat.normSq ⟨w, x, y, z⟩) * Real.sqrt (Quat.normSq ⟨w, x, y, z⟩)) =
          Real.sqrt (Quat.normSq ⟨w, x, y, z⟩) * Real.sqrt (Quat.normSq ⟨w, x, y, z⟩) - w * w := by
        linear_combination (Real.sqrt (Quat.normSq ⟨w, x, y, z⟩) * Real.sqrt (Quat.normSq ⟨w, x, y, z⟩)) * hsin2 - hw2
      have hSSne : Real.sqrt (Quat.normSq ⟨w, x, y, z⟩) * Real.sqrt (Quat.normSq ⟨w, x, y, z⟩) ≠ 0 := ne_of_gt (mul_pos hs0 hs0)
      have hunit : x / Real.sqrt (Quat.normSq ⟨w, x, y, z⟩) * (x / Real.sqrt (Quat.normSq ⟨w, x, y, z⟩)) + y / Real.sqrt (Quat.normSq ⟨w, x, y, z⟩) * (y / Real.sqrt (Quat.normSq ⟨w, x, y, z⟩)) +
          z / Real.sqrt (Quat.normSq ⟨w, x, y, z⟩) * (z / Real.sqrt (Quat.normSq ⟨w, x, y, z⟩)) =
          Real.sin (Real.arccos (w / Real.sqrt (Quat.normSq ⟨w, x, y, z⟩))) * Real.sin (Real.arccos (w / Real.sqrt (Quat.normSq ⟨w, x, y, z⟩))) := by
        rw [div_mul_div_comm, div_mul_div_comm, div_mul_div_comm, div_add_div_same,
          div_add_div_same, hxyz, div_eq_iff hSSne]
        linear_combination -hsin2m
      calc 2 * Real.arccos (w / Real.sqrt (Quat.normSq ⟨w, x, y, z⟩)) / Real.sin (Real.arccos (w / Real.sqrt (Quat.normSq ⟨w, x, y, z⟩))) * (x / Real.sqrt (Quat.normSq ⟨w, x, y, z⟩)) *
            (2 * Real.arccos (w / Real.sqrt (Quat.normSq ⟨w, x, y, z⟩)) / Real.sin (Real.arccos (w / Real.sqrt (Quat.normSq ⟨w, x, y, z⟩))) * (x / Real.sqrt (Quat.normSq ⟨w, x, y, z⟩))) +
          2 * Real.arccos (w / Real.sqrt (Quat.normSq ⟨w, x, y, z⟩)) / Real.sin (Real.arccos (w / Real.sqrt (Quat.normSq ⟨w, x, y, z⟩))) * (y / Real.sqrt (Quat.normSq ⟨w, x, y, z⟩)) *
            (2 * Real.arccos (w / Real.sqrt (Quat.normSq ⟨w, x, y, z⟩)) / Real.sin (Real.arccos (w / Real.sqrt (Quat.normSq ⟨w, x, y, z⟩))) * (y / Real.sqrt (Quat.normSq ⟨w, x, y, z⟩))) +
          2 * Real.arccos (w / Real.sqrt (Quat.normSq ⟨w, x, y, z⟩)) / Real.sin (Real.arccos (w / Real.sqrt (Quat.normSq ⟨w, x, y, z⟩))) * (z / Real.sqrt (Quat.normSq ⟨w, x, y, z⟩)) *
            (2 * Real.arccos (w / Real.sqrt (Quat.normSq ⟨w, x, y, z⟩)) / Real.sin (Real.arccos (w / Real.sqrt (Quat.normSq ⟨w, x, y, z⟩))) * (z / Real.sqrt (Quat.normSq ⟨w, x, y, z⟩))) =
          2 * Real.arccos (w / Real.sqrt (Quat.normSq ⟨w, x, y, z⟩)) / Real.sin (Real.arccos (w / Real.sqrt (Quat.normSq ⟨w, x, y, z⟩))) * (2 * Real.arccos (w / Real.sqrt (Quat.normSq ⟨w, x, y, z⟩)) / Real.sin (Real.arccos (w / Real.sqrt (Quat.normSq ⟨w, x, y, z⟩)))) *
            (x / Real.sqrt (Quat.normSq ⟨w, x, y, z⟩) * (x / Real.sqrt (Quat.normSq ⟨w, x, y, z⟩)) + y / Real.sqrt (Quat.normSq ⟨w, x, y, z⟩) * (y / Real.sqrt (Quat.normSq ⟨w, x, y, z⟩)) +
              z / Real.sqrt (Quat.normSq ⟨w, x, y, z⟩) * (z / Real.sqrt (Quat.normSq ⟨w, x, y, z⟩))) := by ring
        _ = 2 * Real.arccos (w / Real.sqrt (Quat.normSq ⟨w, x, y, z⟩)) / Real.sin (Real.arccos (w / Real.sqrt (Quat.normSq ⟨w, x, y, z⟩))) * (2 * Real.arccos (w / Real.sqrt (Quat.normSq ⟨w, x, y, z⟩)) / Real.sin (Real.arccos (w / Real.sqrt (Quat.normSq ⟨w, x, y, z⟩)))) *
            (Real.sin (Real.arccos (w / Real.sqrt (Quat.normSq ⟨w, x, y, z⟩))) * Real.sin (Real.arccos (w / Real.sqrt (Quat.normSq ⟨w, x, y, z⟩)))) := by rw [hunit]
        _ = 2 * Real.arccos (w / Real.sqrt (Quat.normSq ⟨w, x, y, z⟩)) * (2 * Real.arccos (w / Real.sqrt (Quat.normSq ⟨w, x, y, z⟩))) := by
            field_simp [ne_of_gt hsinpos]
    constructor
    · have hts : Real.sqrt (2 * Real.arccos (w / Real.sqrt (Quat.normSq ⟨w, x, y, z⟩)) *
          (2 * Real.arccos (w / Real.sqrt (Quat.normSq ⟨w, x, y, z⟩)))) =
          2 * Real.arccos (w / Real.sqrt (Quat.normSq ⟨w, x, y, z⟩)) :=
        Real.sqrt_mul_self (by linarith)
      simp only [expAndTheta, vec3_at0, vec3_at1, vec3_at2, hsum, hts]
      rw [if_neg hθ0]
      simp only [Prod.mk.injEq, Quat.mk.injEq, hhalf, hcos, Real.exp_log hs0]
      refine ⟨⟨?_, ?_, ?_, ?_⟩, trivial⟩
      · field_simp
      · field_simp
        ring
      · field_simp
        ring
      · field_simp
        ring
    · exact hsum

theorem vec3_eta {β : Type*} (v : Fin 3 → β) : ![v 0, v 1, v 2] = v := by
  funext i
  fin_cases i <;> rfl

theorem Sim3.ext_rt (p r : Sim3 α) (h1 : p.rxso3 = r.rxso3)
    (h2 : p.translation = r.translation) : p = r := by
  cases p
  cases r
  simp only [Sim3.mk.injEq]
  exact ⟨h1, h2⟩

/-- Group logarithm (sim3.hpp lines 526-539): obtain (ω, σ) and θ from the
collaborator's angle-reporting logarithm of the rotation-scale part, then
return (W⁻¹ · translation, ω, σ) with W⁻¹ = calcWInv(θ, σ, scale, skew(ω)). -/
def Sim3.log (ops : ScalarOps α) (rlog racos : α → α) (g : Sim3 α) : Fin 7 → α :=
  let os := logAndTheta ops rlog racos g.rxso3
  let omega : Fin 3 → α := ![os.1 0, os.1 1, os.1 2]
  let sigma := os.1 3
  let WInv := calcWInv ops os.2 sigma (Quat.scale ops g.rxso3) (so3hat omega)
  let t := WInv.mulVec g.translation
  ![t 0, t 1, t 2, omega 0, omega 1, omega 2, sigma]

set_option maxHeartbeats 1600000 in
theorem log_exp_roundtrip (a : Fin 7 → ℝ)
    (hσ : a 6 = 0 ∨ ((1 / 10 ^ 10 : ℝ) ≤ |a 6| ∧ (1 / 10 ^ 10 : ℝ) ≤ a 6 * a 6))
    (hθ : Real.sqrt (a 3 * a 3 + a 4 * a 4 + a 5 * a 5) = 0 ∨
      ((1 / 10 ^ 10 : ℝ) ≤ Real.sqrt (a 3 * a 3 + a 4 * a 4 + a 5 * a 5) ∧
       (1 / 10 ^ 10 : ℝ) ≤ Real.sqrt (a 3 * a 3 + a 4 * a 4 + a 5 * a 5) *
         Real.sqrt (a 3 * a 3 + a 4 * a 4 + a 5 * a 5) ∧
       Real.sqrt (a 3 * a 3 + a 4 * a 4 + a 5 * a 5) < 2 * Real.pi)) :
    Sim3.log (⟨Real.sin, Real.cos, Real.exp, Real.sqrt, 1 / 10 ^ 10⟩ : ScalarOps ℝ) Real.log Real.arccos
      (Sim3.exp (⟨Real.sin, Real.cos, Real.exp, Real.sqrt, 1 / 10 ^ 10⟩ : ScalarOps ℝ) a) = a := by
  have hsumA : (0 : ℝ) ≤ a 3 * a 3 + a 4 * a 4 + a 5 * a 5 :=
    add_nonneg (add_nonneg (mul_self_nonneg _) (mul_self_nonneg _)) (mul_self_nonneg _)
  have hconv : ![a 3, a 4, a 5] 0 * ![a 3, a 4, a 5] 0 +
      ![a 3, a 4, a 5] 1 * ![a 3, a 4, a 5] 1 +
      ![a 3, a 4, a 5] 2 * ![a 3, a 4, a 5] 2 = a 3 * a 3 + a 4 * a 4 + a 5 * a 5 := by
    simp only [vec3_at0, vec3_at1, vec3_at2]
  have h2π : Real.sqrt (![a 3, a 4, a 5] 0 * ![a 3, a 4, a 5] 0 +
      ![a 3, a 4, a 5] 1 * ![a 3, a 4, a 5] 1 +
      ![a 3, a 4, a 5] 2 * ![a 3, a 4, a 5] 2) < 2 * Real.pi := by
    rw [hconv]
    rcases hθ with h | h
    · rw [h]
      linarith [Real.pi_pos]
    · exact h.2.2
  have hET := logAndTheta_expAndTheta ![a 3, a 4, a 5] (a 6) h2π
  have hscale : Quat.scale (⟨Real.sin, Real.cos, Real.exp, Real.sqrt, 1 / 10 ^ 10⟩ : ScalarOps ℝ)
      (expAndTheta (⟨Real.sin, Real.cos, Real.exp, Real.sqrt, 1 / 10 ^ 10⟩ : ScalarOps ℝ) ![a 3, a 4, a 5] (a 6)).1 = Real.exp (a 6) := by
    simp only [Quat.scale]
    rw [expAndTheta_normSq]
    exact Real.sqrt_mul_self (Real.exp_pos _).le
  have hωt : ![a 3, a 4, a 5] 0 * ![a 3, a 4, a 5] 0 +
      ![a 3, a 4, a 5] 1 * ![a 3, a 4, a 5] 1 +
      ![a 3, a 4, a 5] 2 * ![a 3, a 4, a 5] 2 =
      Real.sqrt (a 3 * a 3 + a 4 * a 4 + a 5 * a 5) *
        Real.sqrt (a 3 * a 3 + a 4 * a 4 + a 5 * a 5) := by
    rw [hconv]
    exact (Real.mul_self_sqrt hsumA).symm
  have hWW := calcWInv_mul_calcW (Real.sqrt (a 3 * a 3 + a 4 * a 4 + a 5 * a 5)) (a 6)
    (Real.exp (a 6)) ![a 3, a 4, a 5] hωt (Real.sqrt_nonneg _) rfl hσ hθ
  simp only [Sim3.exp, Sim3.log]
  simp only [expAndTheta_theta, hET, hscale]
  simp only [vec4_at0, vec4_at1, vec4_at2, vec4_at3, vec3_at0, vec3_at1, vec3_at2]
  simp only [Matrix.mulVec_mulVec, hWW, Matrix.one_mulVec]
  funext i
  fin_cases i <;>
    simp only [fin7_mk0, fin7_mk1, fin7_mk2, fin7_mk3, fin7_mk4, fin7_mk5, fin7_mk6,
      vec7_at0, vec7_at1, vec7_at2, vec7_at3, vec7_at4, vec7_at5, vec7_at6,
      vec3_at0, vec3_at1, vec3_at2]

set_option maxHeartbeats 1600000 in
theorem exp_log_roundtrip (g : Sim3 ℝ)
    (hq : 0 < Quat.normSq g.rxso3)
    (hwlo : -1 < g.rxso3.w / Real.sqrt (Quat.normSq g.rxso3))
    (hσ : Real.log (Real.sqrt (Quat.normSq g.rxso3)) = 0 ∨
      ((1 / 10 ^ 10 : ℝ) ≤ |Real.log (Real.sqrt (Quat.normSq g.rxso3))| ∧
       (1 / 10 ^ 10 : ℝ) ≤ Real.log (Real.sqrt (Quat.normSq g.rxso3)) *
         Real.log (Real.sqrt (Quat.normSq g.rxso3))))
    (hθ : 2 * Real.arccos (g.rxso3.w / Real.sqrt (Quat.normSq g.rxso3)) = 0 ∨
      ((1 / 10 ^ 10 : ℝ) ≤ 2 * Real.arccos (g.rxso3.w / Real.sqrt (Quat.normSq g.rxso3)) ∧
       (1 / 10 ^ 10 : ℝ) ≤ 2 * Real.arccos (g.rxso3.w / Real.sqrt (Quat.normSq g.rxso3)) *
         (2 * Real.arccos (g.rxso3.w / Real.sqrt (Quat.normSq g.rxso3))))) :
    Sim3.exp (⟨Real.sin, Real.cos, Real.exp, Real.sqrt, 1 / 10 ^ 10⟩ : ScalarOps ℝ)
      (Sim3.log (⟨Real.sin, Real.cos, Real.exp, Real.sqrt, 1 / 10 ^ 10⟩ : ScalarOps ℝ) Real.log Real.arccos g) = g := by
  have hs0 : 0 < Real.sqrt (Quat.normSq g.rxso3) := Real.sqrt_pos.mpr hq
  have hET := expAndTheta_logAndTheta g.rxso3 hq hwlo
  have hσ3 : (logAndTheta (⟨Real.sin, Real.cos, Real.exp, Real.sqrt, 1 / 10 ^ 10⟩ : ScalarOps ℝ) Real.log Real.arccos g.rxso3).1 3 =
      Real.log (Real.sqrt (Quat.normSq g.rxso3)) := rfl
  have hθ2 : (logAndTheta (⟨Real.sin, Real.cos, Real.exp, Real.sqrt, 1 / 10 ^ 10⟩ : ScalarOps ℝ) Real.log Real.arccos g.rxso3).2 =
      2 * Real.arccos (g.rxso3.w / Real.sqrt (Quat.normSq g.rxso3)) := rfl
  have hscale : Quat.scale (⟨Real.sin, Real.cos, Real.exp, Real.sqrt, 1 / 10 ^ 10⟩ : ScalarOps ℝ) g.rxso3 =
      Real.sqrt (Quat.normSq g.rxso3) := rfl
  have hωt : ![(logAndTheta (⟨Real.sin, Real.cos, Real.exp, Real.sqrt, 1 / 10 ^ 10⟩ : ScalarOps ℝ) Real.log Real.arccos g.rxso3).1 0,
        (logAndTheta (⟨Real.sin, Real.cos, Real.exp, Real.sqrt, 1 / 10 ^ 10⟩ : ScalarOps ℝ) Real.log Real.arccos g.rxso3).1 1,
        (logAndTheta (⟨Real.sin, Real.cos, Real.exp, Real.sqrt, 1 / 10 ^ 10⟩ : ScalarOps ℝ) Real.log Real.arccos g.rxso3).1 2] 0 *
      ![(logAndTheta (⟨Real.sin, Real.cos, Real.exp, Real.sqrt, 1 / 10 ^ 10⟩ : ScalarOps ℝ) Real.log Real.arccos g.rxso3).1 0,
        (logAndTheta (⟨Real.sin, Real.cos, Real.exp, Real.sqrt, 1 / 10 ^ 10⟩ : ScalarOps ℝ) Real.log Real.arccos g.rxso3).1 1,
        (logAndTheta (⟨Real.sin, Real.cos, Real.exp, Real.sqrt, 1 / 10 ^ 10⟩ : ScalarOps ℝ) Real.log Real.arccos g.rxso3).1 2] 0 +
      ![(logAndTheta (⟨Real.sin, Real.cos, Real.exp, Real.sqrt, 1 / 10 ^ 10⟩ : ScalarOps ℝ) Real.log Real.arccos g.rxso3).1 0,
        (logAndTheta (⟨Real.sin, Real.cos, Real.exp, Real.sqrt, 1 / 10 ^ 10⟩ : ScalarOps ℝ) Real.log Real.arccos g.rxso3).1 1,
        (logAndTheta (⟨Real.sin, Real.cos, Real.exp, Real.sqrt, 1 / 10 ^ 10⟩ : ScalarOps ℝ) Real.log Real.arccos g.rxso3).1 2] 1 *
      ![(logAndTheta (⟨Real.sin, Real.cos, Real.exp, Real.sqrt, 1 / 10 ^ 10⟩ : ScalarOps ℝ) Real.log Real.arccos g.rxso3).1 0,
        (logAndTheta (⟨Real.sin, Real.cos, Real.exp, Real.sqrt, 1 / 10 ^ 10⟩ : ScalarOps ℝ) Real.log Real.arccos g.rxso3).1 1,
        (logAndTheta (⟨Real.sin, Real.cos, Real.exp, Real.sqrt, 1 / 10 ^ 10⟩ : ScalarOps ℝ) Real.log Real.arccos g.rxso3).1 2] 1 +
      ![(logAndTheta (⟨Real.sin, Real.cos, Real.exp, Real.sqrt, 1 / 10 ^ 10⟩ : ScalarOps ℝ) Real.log Real.arccos g.rxso3).1 0,
        (logAndTheta (⟨Real.sin, Real.cos, Real.exp, Real.sqrt, 1 / 10 ^ 10⟩ : ScalarOps ℝ) Real.log Real.arccos g.rxso3).1 1,
        (logAndTheta (⟨Real.sin, Real.cos, Real.exp, Real.sqrt, 1 / 10 ^ 10⟩ : ScalarOps ℝ) Real.log Real.arccos g.rxso3).1 2] 2 *
      ![(logAndTheta (⟨Real.sin, Real.cos, Real.exp, Real.sqrt, 1 / 10 ^ 10⟩ : ScalarOps ℝ) Real.log Real.arccos g.rxso3).1 0,
        (logAndTheta (⟨Real.sin, Real.cos, Real.exp, Real.sqrt, 1 / 10 ^ 10⟩ : ScalarOps ℝ) Real.log Real.arccos g.rxso3).1 1,
        (logAndTheta (⟨Real.sin, Real.cos, Real.exp, Real.sqrt, 1 / 10 ^ 10⟩ : ScalarOps ℝ) Real.log Real.arccos g.rxso3).1 2] 2 =
      (logAndTheta (⟨Real.sin, Real.cos, Real.exp, Real.sqrt, 1 / 10 ^ 10⟩ : ScalarOps ℝ) Real.log Real.arccos g.rxso3).2 *
        (logAndTheta (⟨Real.sin, Real.cos, Real.exp, Real.sqrt, 1 / 10 ^ 10⟩ : ScalarOps ℝ) Real.log Real.arccos g.rxso3).2 := by
    simp only [vec3_at0, vec3_at1, vec3_at2]
    exact hET.2
  have harcπ : Real.arccos (g.rxso3.w / Real.sqrt (Quat.normSq g.rxso3)) < Real.pi :=
    lt_of_le_of_ne (Real.arccos_le_pi _)
      (fun h => absurd (Real.arccos_eq_pi.mp h) (not_le.mpr hwlo))
  have hθc : (logAndTheta (⟨Real.sin, Real.cos, Real.exp, Real.sqrt, 1 / 10 ^ 10⟩ : ScalarOps ℝ) Real.log Real.arccos g.rxso3).2 = 0 ∨
      ((1 / 10 ^ 10 : ℝ) ≤ (logAndTheta (⟨Real.sin, Real.cos, Real.exp, Real.sqrt, 1 / 10 ^ 10⟩ : ScalarOps ℝ) Real.log Real.arccos g.rxso3).2 ∧
       (1 / 10 ^ 10 : ℝ) ≤ (logAndTheta (⟨Real.sin, Real.cos, Real.exp, Real.sqrt, 1 / 10 ^ 10⟩ : ScalarOps ℝ) Real.log Real.arccos g.rxso3).2 *
         (logAndTheta (⟨Real.sin, Real.cos, Real.exp, Real.sqrt, 1 / 10 ^ 10⟩ : ScalarOps ℝ) Real.log Real.arccos g.rxso3).2 ∧
       (logAndTheta (⟨Real.sin, Real.cos, Real.exp, Real.sqrt, 1 / 10 ^ 10⟩ : ScalarOps ℝ) Real.log Real.arccos g.rxso3).2 < 2 * Real.pi) := by
    rw [hθ2]
    rcases hθ with h | h
    · exact Or.inl h
    · exact Or.inr ⟨h.1, h.2, by linarith⟩
  have hσc : (logAndTheta (⟨Real.sin, Real.cos, Real.exp, Real.sqrt, 1 / 10 ^ 10⟩ : ScalarOps ℝ) Real.log Real.arccos g.rxso3).1 3 = 0 ∨
      ((1 / 10 ^ 10 : ℝ) ≤ |(logAndTheta (⟨Real.sin, Real.cos, Real.exp, Real.sqrt, 1 / 10 ^ 10⟩ : ScalarOps ℝ) Real.log Real.arccos g.rxso3).1 3| ∧
       (1 / 10 ^ 10 : ℝ) ≤ (logAndTheta (⟨Real.sin, Real.cos, Real.exp, Real.sqrt, 1 / 10 ^ 10⟩ : ScalarOps ℝ) Real.log Real.arccos g.rxso3).1 3 *
         (logAndTheta (⟨Real.sin, Real.cos, Real.exp, Real.sqrt, 1 / 10 ^ 10⟩ : ScalarOps ℝ) Real.log Real.arccos g.rxso3).1 3) := by
    rw [hσ3]
    exact hσ
  have hsexp : Quat.scale (⟨Real.sin, Real.cos, Real.exp, Real.sqrt, 1 / 10 ^ 10⟩ : ScalarOps ℝ) g.rxso3 =
      Real.exp ((logAndTheta (⟨Real.sin, Real.cos, Real.exp, Real.sqrt, 1 / 10 ^ 10⟩ : ScalarOps ℝ) Real.log Real.arccos g.rxso3).1 3) := by
    rw [hscale, hσ3, Real.exp_log hs0]
  have hWW := calcWInv_mul_calcW ((logAndTheta (⟨Real.sin, Real.cos, Real.exp, Real.sqrt, 1 / 10 ^ 10⟩ : ScalarOps ℝ) Real.log Real.arccos g.rxso3).2)
    ((logAndTheta (⟨Real.sin, Real.cos, Real.exp, Real.sqrt, 1 / 10 ^ 10⟩ : ScalarOps ℝ) Real.log Real.arccos g.rxso3).1 3)
    (Quat.scale (⟨Real.sin, Real.cos, Real.exp, Real.sqrt, 1 / 10 ^ 10⟩ : ScalarOps ℝ) g.rxso3)
    ![(logAndTheta (⟨Real.sin, Real.cos, Real.exp, Real.sqrt, 1 / 10 ^ 10⟩ : ScalarOps ℝ) Real.log Real.arccos g.rxso3).1 0,
      (logAndTheta (⟨Real.sin, Real.cos, Real.exp, Real.sqrt, 1 / 10 ^ 10⟩ : ScalarOps ℝ) Real.log Real.arccos g.rxso3).1 1,
      (logAndTheta (⟨Real.sin, Real.cos, Real.exp, Real.sqrt, 1 / 10 ^ 10⟩ : ScalarOps ℝ) Real.log Real.arccos g.rxso3).1 2]
    hωt (by
      rw [hθ2]
      have := Real.arccos_nonneg (g.rxso3.w / Real.sqrt (Quat.normSq g.rxso3))
      linarith) hsexp hσc hθc
  have hWWI := Matrix.mul_eq_one_comm.mp hWW
  apply Sim3.ext_rt
  · simp only [Sim3.exp, Sim3.log]
    simp only [vec7_at0, vec7_at1, vec7_at2, vec7_at3, vec7_at4, vec7_at5, vec7_at6,
      vec3_at0, vec3_at1, vec3_at2]
    simp only [hET.1]
  · simp only [Sim3.exp, Sim3.log]
    simp only [vec7_at0, vec7_at1, vec7_at2, vec7_at3, vec7_at4, vec7_at5, vec7_at6,
      vec3_at0, vec3_at1, vec3_at2]
    simp only [hET.1, vec3_eta]
    simp only [Matrix.mulVec_mulVec, hWWI, Matrix.one_mulVec]

/-- Claim C3: over ℝ, away from the branch boundaries, `log` is the exact
two-sided algebraic inverse of `exp`: (i) log(exp a) = a for every tangent
vector a whose σ = a₆ is 0 or ε-large and whose θ = ‖ω‖ is 0 or ε-large and
below 2π; (ii) exp(log g) = g for every Sim3 element g with quaternion of
positive norm, w/‖q‖ > −1, whose recovered σ = log ‖q‖ and θ = 2·arccos(w/‖q‖)
are each 0 or ε-large.  (The claim's "≈ within a tolerance" is settled by the
exact equality.) -/
theorem C3_log_exp_round_trip :
    (∀ a : Fin 7 → ℝ,
      (a 6 = 0 ∨ ((1 / 10 ^ 10 : ℝ) ≤ |a 6| ∧ (1 / 10 ^ 10 : ℝ) ≤ a 6 * a 6)) →
      (Real.sqrt (a 3 * a 3 + a 4 * a 4 + a 5 * a 5) = 0 ∨
        ((1 / 10 ^ 10 : ℝ) ≤ Real.sqrt (a 3 * a 3 + a 4 * a 4 + a 5 * a 5) ∧
         (1 / 10 ^ 10 : ℝ) ≤ Real.sqrt (a 3 * a 3 + a 4 * a 4 + a 5 * a 5) *
           Real.sqrt (a 3 * a 3 + a 4 * a 4 + a 5 * a 5) ∧
         Real.sqrt (a 3 * a 3 + a 4 * a 4 + a 5 * a 5) < 2 * Real.pi)) →
      Sim3.log (⟨Real.sin, Real.cos, Real.exp, Real.sqrt, 1 / 10 ^ 10⟩ : ScalarOps ℝ) Real.log Real.arccos (Sim3.exp (⟨Real.sin, Real.cos, Real.exp, Real.sqrt, 1 / 10 ^ 10⟩ : ScalarOps ℝ) a) = a) ∧
    (∀ g : Sim3 ℝ,
      0 < Quat.normSq g.rxso3 →
      -1 < g.rxso3.w / Real.sqrt (Quat.normSq g.rxso3) →
      (Real.log (Real.sqrt (Quat.normSq g.rxso3)) = 0 ∨
        ((1 / 10 ^ 10 : ℝ) ≤ |Real.log (Real.sqrt (Quat.normSq g.rxso3))| ∧
         (1 / 10 ^ 10 : ℝ) ≤ Real.log (Real.sqrt (Quat.normSq g.rxso3)) *
           Real.log (Real.sqrt (Quat.normSq g.rxso3)))) →
      (2 * Real.arccos (g.rxso3.w / Real.sqrt (Quat.normSq g.rxso3)) = 0 ∨
        ((1 / 10 ^ 10 : ℝ) ≤ 2 * Real.arccos (g.rxso3.w / Real.sqrt (Quat.normSq g.rxso3)) ∧
         (1 / 10 ^ 10 : ℝ) ≤ 2 * Real.arccos (g.rxso3.w / Real.sqrt (Quat.normSq g.rxso3)) *
           (2 * Real.arccos (g.rxso3.w / Real.sqrt (Quat.normSq g.rxso3))))) →
      Sim3.exp (⟨Real.sin, Real.cos, Real.exp, Real.sqrt, 1 / 10 ^ 10⟩ : ScalarOps ℝ) (Sim3.log (⟨Real.sin, Real.cos, Real.exp, Real.sqrt, 1 / 10 ^ 10⟩ : ScalarOps ℝ) Real.log Real.arccos g) = g) :=
  ⟨log_exp_roundtrip, exp_log_roundtrip⟩

/-- Claim C3 witness: the round trip evaluated both ways at concrete inputs,
a = (1,2,3,0,0,0,0) and g = (quaternion (2,0,0,0), translation (4,5,6)). -/
theorem C3_log_exp_round_trip_witness :
    Sim3.log (⟨Real.sin, Real.cos, Real.exp, Real.sqrt, 1 / 10 ^ 10⟩ : ScalarOps ℝ) Real.log Real.arccos
        (Sim3.exp (⟨Real.sin, Real.cos, Real.exp, Real.sqrt, 1 / 10 ^ 10⟩ : ScalarOps ℝ) ![1, 2, 3, 0, 0, 0, 0]) = ![1, 2, 3, 0, 0, 0, 0] ∧
    Sim3.exp (⟨Real.sin, Real.cos, Real.exp, Real.sqrt, 1 / 10 ^ 10⟩ : ScalarOps ℝ) (Sim3.log (⟨Real.sin, Real.cos, Real.exp, Real.sqrt, 1 / 10 ^ 10⟩ : ScalarOps ℝ) Real.log Real.arccos
        ⟨⟨2, 0, 0, 0⟩, ![4, 5, 6]⟩) = ⟨⟨2, 0, 0, 0⟩, ![4, 5, 6]⟩ := by
  have hs4 : Real.sqrt (Quat.normSq (⟨2, 0, 0, 0⟩ : Quat ℝ)) = 2 := by
    rw [show Quat.normSq (⟨2, 0, 0, 0⟩ : Quat ℝ) = 4 from by norm_num [Quat.normSq],
      show (4 : ℝ) = 2 ^ 2 from by norm_num, Real.sqrt_sq (by norm_num : (0 : ℝ) ≤ 2)]
  refine ⟨C3_log_exp_round_trip.1 ![1, 2, 3, 0, 0, 0, 0] (Or.inl (by rfl)) (Or.inl (by simp [vec7_at3, vec7_at4, vec7_at5])),
    C3_log_exp_round_trip.2 ⟨⟨2, 0, 0, 0⟩, ![4, 5, 6]⟩
      (by norm_num [Quat.normSq]) ?_ ?_ ?_⟩
  · show -1 < (2 : ℝ) / Real.sqrt (Quat.normSq (⟨2, 0, 0, 0⟩ : Quat ℝ))
    rw [hs4]
    norm_num
  · show Real.log (Real.sqrt (Quat.normSq (⟨2, 0, 0, 0⟩ : Quat ℝ))) = 0 ∨
      ((1 / 10 ^ 10 : ℝ) ≤ |Real.log (Real.sqrt (Quat.normSq (⟨2, 0, 0, 0⟩ : Quat ℝ)))| ∧
       (1 / 10 ^ 10 : ℝ) ≤ Real.log (Real.sqrt (Quat.normSq (⟨2, 0, 0, 0⟩ : Quat ℝ))) *
         Real.log (Real.sqrt (Quat.normSq (⟨2, 0, 0, 0⟩ : Quat ℝ))))
    rw [hs4]
    refine Or.inr ⟨?_, ?_⟩
    · rw [abs_of_pos (by linarith [Real.log_two_gt_d9])]
      linarith [Real.log_two_gt_d9]
    · nlinarith [Real.log_two_gt_d9]
  · show 2 * Real.arccos ((2 : ℝ) / Real.sqrt (Quat.normSq (⟨2, 0, 0, 0⟩ : Quat ℝ))) = 0 ∨ _
    rw [hs4]
    exact Or.inl (by rw [show (2 : ℝ) / 2 = 1 from by norm_num, Real.arccos_one, mul_zero])

end Sophus
